import Mathlib

/-!
# Verification of the gones NES emulator core

A shallow embedding of the Go sources of the `gones` emulator
(packages `cpu`, `ppu`, `memory`, `input`, `apu`, `cartridge`,
`cartridge/mapper`) together with theorems settling the behavioural
claims about interrupts, the MMC3 IRQ counter, PPU register and VRAM
semantics, OAM DMA, nametable mirroring, controller reads, mapper-0
PRG mirroring and iNES loading.

Machine integers are modelled as `Nat` with explicit `% 2^w` where the
Go code relies on wrap-around; Go byte slices are modelled as a length
together with a contents function; Go interface values are modelled as
records of functions over an abstract state type.
-/

namespace GoNES

/-- A Go byte slice: a length and its contents (reads are always
bounds-checked in the embedded code, mirroring the source's guards). -/
structure Buf where
  size : Nat
  data : Nat → Nat

/-- Functional update of a Go slice/array cell. -/
def Buf.set (b : Buf) (i v : Nat) : Buf :=
  { b with data := fun j => if j = i then v else b.data j }

/-- Functional update of an array modelled as `Nat → Nat`. -/
def updf (f : Nat → Nat) (i v : Nat) : Nat → Nat :=
  fun j => if j = i then v else f j

/-- Functional update of an array modelled as `Nat → Bool`. -/
def updb (f : Nat → Bool) (i : Nat) (v : Bool) : Nat → Bool :=
  fun j => if j = i then v else f j

/-- Go's `x &^ m` (AND NOT) for values below 2^16, as used on the
emulator's 8- and 16-bit register fields. -/
def bclr (x m : Nat) : Nat := x &&& (0xFFFF ^^^ m)

/-- `mapper.CartridgeData`: the ROM/RAM buffers handed to a mapper. -/
structure CartridgeData where
  prgrom : Buf
  chrrom : Buf
  prgram : Buf
  chrram : Buf

/-! ## pkg/ppu/palette.go -/

/-- `ppu.PaletteManager`: 32 bytes of palette RAM plus the emphasis
bits taken from PPUMASK. -/
structure PaletteManager where
  paletteRAM : Nat → Nat
  emphasis : Nat

/-- `ppu.NewPaletteManager`: the power-up palette contents (index 0 is
set to $0F, the fill loop sets 1..31 to $30, then indices 0..3 are
overwritten with $0F/$30/$10/$00). -/
def NewPaletteManager : PaletteManager :=
  let r0 : Nat → Nat := fun _ => 0
  let r1 := updf r0 0 0x0F
  let r2 : Nat → Nat := fun i => if 1 ≤ i ∧ i < 32 then 0x30 else r1 i
  let r3 := updf r2 0 0x0F
  let r4 := updf r3 1 0x30
  let r5 := updf r4 2 0x10
  let r6 := updf r5 3 0x00
  { paletteRAM := r6, emphasis := 0 }

/-- `PaletteManager.ReadPalette`: mask to the 32-byte range and redirect
the sprite backdrop mirrors $10/$14/$18/$1C to $00/$04/$08/$0C. -/
def ReadPalette (pm : PaletteManager) (addr : Nat) : Nat :=
  let addr := addr &&& 0x1F
  let addr :=
    if addr = 0x10 then 0x00
    else if addr = 0x14 then 0x04
    else if addr = 0x18 then 0x08
    else if addr = 0x1C then 0x0C
    else addr
  pm.paletteRAM addr

/-- `PaletteManager.WritePalette`: same mirroring as reads; only the low
6 bits of the value are stored. -/
def WritePalette (pm : PaletteManager) (addr value : Nat) : PaletteManager :=
  let addr := addr &&& 0x1F
  let addr :=
    if addr = 0x10 then 0x00
    else if addr = 0x14 then 0x04
    else if addr = 0x18 then 0x08
    else if addr = 0x1C then 0x0C
    else addr
  { pm with paletteRAM := updf pm.paletteRAM addr (value &&& 0x3F) }

/-- `PaletteManager.SetEmphasis`. -/
def SetEmphasis (pm : PaletteManager) (e : Nat) : PaletteManager :=
  { pm with emphasis := e }

/-! ## pkg/input/controller.go -/

/-- `input.Controller`: latched button byte, strobe flag and shift
index. -/
structure Controller where
  buttons : Nat
  strobe : Bool
  index : Nat

/-- `Controller.Read`: past the 8th read return 1; otherwise return the
bit selected by `index` and advance the index unless strobing. -/
def ctrlRead (c : Controller) : Nat × Controller :=
  if c.index > 7 then (1, c)
  else
    let result := (c.buttons >>> c.index) &&& 1
    if !c.strobe then (result, { c with index := c.index + 1 })
    else (result, c)

/-- `Controller.Write`: bit 0 sets the strobe; while strobing the index
is reset to 0. -/
def ctrlWrite (c : Controller) (value : Nat) : Controller :=
  let strobe := value &&& 1 ≠ 0
  if strobe then { c with strobe := strobe, index := 0 }
  else { c with strobe := strobe }

/-! ## pkg/apu: the register interface

The synthesis state of the five channels (timers, duty, envelope and
sweep internals, DMC playback) lies outside the modelled slice; the
fields below are the ones `ReadRegister` reports plus the ones the
register writes reach on the way there (channel enables, length-counter
halt flags, length counters, frame counter, IRQ flags). -/

/-- The slice of `apu.APU` reached by `ReadRegister`/`WriteRegister`. -/
structure APU where
  pulse1Enabled : Bool
  pulse1Halt : Bool
  pulse1Length : Nat
  pulse2Enabled : Bool
  pulse2Halt : Bool
  pulse2Length : Nat
  triangleEnabled : Bool
  triangleHalt : Bool
  triangleLength : Nat
  noiseEnabled : Bool
  noiseHalt : Bool
  noiseLength : Nat
  dmcEnabled : Bool
  dmcIRQEnabled : Bool
  dmcSampleLength : Nat
  dmcCurrentLength : Nat
  frameCounter : Nat
  frameStep : Nat
  frameIRQ : Bool

/-- A powered-up APU with all channels disabled and counters zero. -/
def APU.zero : APU :=
  { pulse1Enabled := false, pulse1Halt := false, pulse1Length := 0
    pulse2Enabled := false, pulse2Halt := false, pulse2Length := 0
    triangleEnabled := false, triangleHalt := false, triangleLength := 0
    noiseEnabled := false, noiseHalt := false, noiseLength := 0
    dmcEnabled := false, dmcIRQEnabled := false
    dmcSampleLength := 0, dmcCurrentLength := 0
    frameCounter := 0, frameStep := 0, frameIRQ := false }

/-- `apu.lengthTable` (out-of-range indices cannot arise: the source
indexes with `(value>>3)&0x1F`). -/
def lengthTable (i : Nat) : Nat :=
  [10, 254, 20, 2, 40, 4, 80, 6, 160, 8, 60, 10, 14, 12, 26, 14,
   12, 16, 24, 18, 48, 20, 96, 22, 192, 24, 72, 26, 16, 28, 32, 30].getD i 0

/-- `APU.stepLengthCounter` on one (enabled, halt, value) triple. -/
def stepLC (enabled halt : Bool) (value : Nat) : Nat :=
  if enabled ∧ ¬ halt ∧ value > 0 then value - 1 else value

/-- `APU.stepLengthCounters`. -/
def stepLengthCounters (a : APU) : APU :=
  { a with
    pulse1Length := stepLC a.pulse1Enabled a.pulse1Halt a.pulse1Length
    pulse2Length := stepLC a.pulse2Enabled a.pulse2Halt a.pulse2Length
    triangleLength := stepLC a.triangleEnabled a.triangleHalt a.triangleLength
    noiseLength := stepLC a.noiseEnabled a.noiseHalt a.noiseLength }

/-- `APU.WriteRegister` projected onto the modelled slice.  Each case
follows the corresponding handler in the source (`writePulse`,
`writeTriangle`, `writeNoise`, `writeDMC`, `writeStatus`,
`writeFrameCounter`); writes that reach only duty, sweep, timer,
envelope or DMC-playback state are identities here. -/
def apuWriteRegister (a : APU) (addr value : Nat) : APU :=
  if addr = 0x4000 then { a with pulse1Halt := value &&& 0x20 ≠ 0 }
  else if addr = 0x4003 then
    if a.pulse1Enabled then
      { a with pulse1Length := lengthTable ((value >>> 3) &&& 0x1F) }
    else a
  else if addr = 0x4004 then { a with pulse2Halt := value &&& 0x20 ≠ 0 }
  else if addr = 0x4007 then
    if a.pulse2Enabled then
      { a with pulse2Length := lengthTable ((value >>> 3) &&& 0x1F) }
    else a
  else if addr = 0x4008 then { a with triangleHalt := value &&& 0x80 ≠ 0 }
  else if addr = 0x400B then
    if a.triangleEnabled then
      { a with triangleLength := lengthTable ((value >>> 3) &&& 0x1F) }
    else a
  else if addr = 0x400C then { a with noiseHalt := value &&& 0x20 ≠ 0 }
  else if addr = 0x400F then
    if a.noiseEnabled then
      { a with noiseLength := lengthTable ((value >>> 3) &&& 0x1F) }
    else a
  else if addr = 0x4010 then { a with dmcIRQEnabled := value &&& 0x80 ≠ 0 }
  else if addr = 0x4013 then
    { a with dmcSampleLength := value * 16 + 1, dmcCurrentLength := value * 16 + 1 }
  else if addr = 0x4015 then
    let a : APU := { a with
      pulse1Enabled := value &&& 0x01 ≠ 0, pulse2Enabled := value &&& 0x02 ≠ 0
      triangleEnabled := value &&& 0x04 ≠ 0, noiseEnabled := value &&& 0x08 ≠ 0
      dmcEnabled := value &&& 0x10 ≠ 0 }
    { a with
      pulse1Length := if a.pulse1Enabled then a.pulse1Length else 0
      pulse2Length := if a.pulse2Enabled then a.pulse2Length else 0
      triangleLength := if a.triangleEnabled then a.triangleLength else 0
      noiseLength := if a.noiseEnabled then a.noiseLength else 0
      dmcCurrentLength := if a.dmcEnabled then a.dmcCurrentLength else 0 }
  else if addr = 0x4017 then
    let a : APU := { a with frameCounter := value, frameStep := 0 }
    let a : APU := if value &&& 0x80 ≠ 0 then stepLengthCounters a else a
    if value &&& 0x40 ≠ 0 then { a with frameIRQ := false } else a
  else a

/-- `APU.ReadRegister`: only $4015 (status) is decoded; every other
address, including $4017, falls through to 0. -/
def apuReadRegister (a : APU) (addr : Nat) : Nat × APU :=
  if addr = 0x4015 then
    let status : Nat :=
      (if a.pulse1Length > 0 then 0x01 else 0) |||
      (if a.pulse2Length > 0 then 0x02 else 0) |||
      (if a.triangleLength > 0 then 0x04 else 0) |||
      (if a.noiseLength > 0 then 0x08 else 0) |||
      (if a.dmcCurrentLength > 0 then 0x10 else 0) |||
      (if a.frameIRQ then 0x40 else 0) |||
      (if a.dmcIRQEnabled ∧ a.dmcCurrentLength = 0 then 0x80 else 0)
    (status, { a with frameIRQ := false })
  else (0, a)

/-! ## pkg/cartridge/mapper: Mapper0 (NROM) -/

/-- `mapper.Mapper0`. -/
structure Mapper0 where
  cartridge : CartridgeData

/-- `mapper.NewMapper0`. -/
def NewMapper0 (data : CartridgeData) : Mapper0 :=
  { cartridge := data }

/-- `Mapper0.ReadPRG`: $8000.. reads PRG ROM (mirrored when the ROM is
16 KiB); $6000..$7FFF reads PRG RAM when present; otherwise 0. -/
def mapper0ReadPRG (m : Mapper0) (addr : Nat) : Nat :=
  if addr ≥ 0x8000 then
    let addr := addr - 0x8000
    let addr := if m.cartridge.prgrom.size = 16384 then addr % 16384 else addr
    if addr < m.cartridge.prgrom.size then m.cartridge.prgrom.data addr else 0
  else if addr ≥ 0x6000 ∧ m.cartridge.prgram.size > 0 then
    let addr := addr - 0x6000
    if addr < m.cartridge.prgram.size then m.cartridge.prgram.data addr else 0
  else 0

/-- `Mapper0.WritePRG`: only PRG RAM at $6000..$7FFF is writable. -/
def mapper0WritePRG (m : Mapper0) (addr value : Nat) : Mapper0 :=
  if addr ≥ 0x6000 ∧ addr < 0x8000 ∧ m.cartridge.prgram.size > 0 then
    let a := addr - 0x6000
    if a < m.cartridge.prgram.size then
      { m with cartridge :=
          { m.cartridge with prgram := m.cartridge.prgram.set a value } }
    else m
  else m

/-! ## pkg/cartridge/mapper: Mapper1/2/3 construction (the loader's
success branches; their banking logic is not needed by the claims) -/

/-- `mapper.Mapper1` (MMC1 serial-port state). -/
structure Mapper1 where
  cartridge : CartridgeData
  shiftRegister : Nat
  shiftCount : Nat
  control : Nat
  chrBank0 : Nat
  chrBank1 : Nat
  prgBank : Nat
  prgMode : Nat
  chrMode : Nat
  mirroring : Nat

/-- `mapper.NewMapper1`. -/
def NewMapper1 (data : CartridgeData) : Mapper1 :=
  { cartridge := data, shiftRegister := 0, shiftCount := 0
    control := 0x0C, chrBank0 := 0, chrBank1 := 0, prgBank := 0
    prgMode := 3, chrMode := 0, mirroring := 0 }

/-- `mapper.Mapper2` (UxROM). -/
structure Mapper2 where
  cartridge : CartridgeData
  prgBank : Nat
  prgBankCount : Nat

/-- `mapper.NewMapper2`. -/
def NewMapper2 (data : CartridgeData) : Mapper2 :=
  { cartridge := data, prgBank := 0
    prgBankCount := (data.prgrom.size / 16384) % 256 }

/-- `mapper.Mapper3` (CNROM). -/
structure Mapper3 where
  cartridge : CartridgeData
  chrBank : Nat
  chrBankCount : Nat
  busConflictMode : Nat

/-- `mapper.NewMapper3`. -/
def NewMapper3 (data : CartridgeData) : Mapper3 :=
  { cartridge := data, chrBank := 0
    chrBankCount := if data.chrrom.size > 0 then (data.chrrom.size / 8192) % 256 else 0
    busConflictMode := 1 }

/-! ## pkg/cartridge/mapper/mapper4.go (MMC3) -/

/-- `mapper.Mapper4`: MMC3 banking and IRQ state. -/
structure Mapper4 where
  data : CartridgeData
  bankRegisters : Nat → Nat
  bankSelect : Nat
  mirroringMode : Nat
  prgRAMProtect : Nat
  irqReloadValue : Nat
  irqCounter : Nat
  irqEnabled : Bool
  irqPending : Bool
  irqReloadFlag : Bool
  a12Low : Bool
  a12LowCounter : Nat
  a12FilterPass : Bool
  a12History : Nat → Bool
  a12HistoryPos : Nat
  m2CycleCount : Nat
  prgBankCount : Nat
  chrBankCount : Nat
  isSharpMMC3 : Bool

/-- `mapper.NewMapper4`: bank counts from the buffer sizes, R6/R7 to the
last two PRG banks, R0..R5 to in-range CHR banks, IRQ machinery idle,
Sharp-variant behaviour selected. -/
def NewMapper4 (data : CartridgeData) : Mapper4 :=
  let prgBankCount := (data.prgrom.size / 8192) % 256
  let chrBankCount :=
    if data.chrrom.size > 0 then (data.chrrom.size / 1024) % 256
    else if data.chrram.size > 0 then (data.chrram.size / 1024) % 256
    else 8
  let regs0 : Nat → Nat := fun _ => 0
  let regs1 :=
    if prgBankCount ≥ 2 then
      updf (updf regs0 6 (prgBankCount - 2)) 7 (prgBankCount - 1)
    else regs0
  let regs2 : Nat → Nat := fun i =>
    if i < 6 then (if chrBankCount > 0 then i % chrBankCount else i) else regs1 i
  { data := data, bankRegisters := regs2, bankSelect := 0
    mirroringMode := 0, prgRAMProtect := 0x80
    irqReloadValue := 0, irqCounter := 0, irqEnabled := false
    irqPending := false, irqReloadFlag := false
    a12Low := true, a12LowCounter := 0, a12FilterPass := false
    a12History := fun _ => false, a12HistoryPos := 0, m2CycleCount := 0
    prgBankCount := prgBankCount, chrBankCount := chrBankCount
    isSharpMMC3 := true }

/-- `Mapper4.WritePRG`: PRG-RAM writes at $6000..$7FFF, and the eight
MMC3 registers selected by `addr & 0xE001` at $8000 and above. -/
def mapper4WritePRG (m : Mapper4) (addr value : Nat) : Mapper4 :=
  if addr ≥ 0x6000 ∧ addr ≤ 0x7FFF then
    if m.data.prgram.size > 0 ∧ m.prgRAMProtect &&& 0x80 ≠ 0 ∧
        m.prgRAMProtect &&& 0x40 = 0 then
      { m with data := { m.data with prgram := m.data.prgram.set (addr - 0x6000) value } }
    else m
  else if addr ≥ 0x8000 then
    let reg := addr &&& 0xE001
    if reg = 0x8000 then { m with bankSelect := value }
    else if reg = 0x8001 then
      let regIndex := m.bankSelect &&& 0x07
      if regIndex < 8 then
        if regIndex ≥ 6 then
          -- Go computes `int(value) % m.prgBankCount`, which panics with a
          -- divide-by-zero when the PRG ROM is empty (prgBankCount = 0);
          -- Nat `% 0` is the identity instead, so this equation is faithful
          -- only for prgBankCount > 0 (any cartridge with PRG data).
          { m with bankRegisters := updf m.bankRegisters regIndex (value % m.prgBankCount) }
        else
          if m.chrBankCount > 0 then
            { m with bankRegisters := updf m.bankRegisters regIndex (value % m.chrBankCount) }
          else
            { m with bankRegisters := updf m.bankRegisters regIndex value }
      else m
    else if reg = 0xA000 then { m with mirroringMode := value &&& 1 }
    else if reg = 0xA001 then { m with prgRAMProtect := value }
    else if reg = 0xC000 then { m with irqReloadValue := value }
    else if reg = 0xC001 then { m with irqReloadFlag := true, irqCounter := 0 }
    else if reg = 0xE000 then { m with irqEnabled := false, irqPending := false }
    else if reg = 0xE001 then { m with irqEnabled := true }
    else m
  else m

/-- `Mapper4.Step`: one filtered A12 rising edge clocks the IRQ counter
(reload on the reload flag or on zero, else decrement) and, on the
Sharp variant, raises the pending IRQ whenever the counter is zero with
IRQs enabled. -/
def mapper4Step (m : Mapper4) : Mapper4 :=
  let m :=
    if m.irqReloadFlag then
      { m with irqCounter := m.irqReloadValue, irqReloadFlag := false }
    else if m.irqCounter = 0 then
      { m with irqCounter := m.irqReloadValue }
    else
      { m with irqCounter := m.irqCounter - 1 }
  let shouldTriggerIRQ :=
    if m.isSharpMMC3 then m.irqCounter = 0 ∧ m.irqEnabled
    else m.irqCounter = 0 ∧ m.irqEnabled ∧ m.irqReloadValue > 0
  if shouldTriggerIRQ then { m with irqPending := true } else m

/-- `Mapper4.IsIRQPending`. -/
def mapper4IsIRQPending (m : Mapper4) : Bool := m.irqPending

/-- `Mapper4.ClearIRQ`. -/
def mapper4ClearIRQ (m : Mapper4) : Mapper4 := { m with irqPending := false }

/-- `Mapper4.GetMirroringMode`. -/
def mapper4GetMirroringMode (m : Mapper4) : Nat := m.mirroringMode

/-- Iterated `Mapper4.Step`: `n` filtered A12 rising edges. -/
def mapper4StepN (m : Mapper4) : Nat → Mapper4
  | 0 => m
  | n + 1 => mapper4Step (mapper4StepN m n)

/-! ## pkg/cartridge/mapper/mapper.go: the mapper factory -/

/-- A constructed `mapper.Mapper` interface value: one of the five
supported mappers. -/
inductive MapperInst where
  | m0 : Mapper0 → MapperInst
  | m1 : Mapper1 → MapperInst
  | m2 : Mapper2 → MapperInst
  | m3 : Mapper3 → MapperInst
  | m4 : Mapper4 → MapperInst

/-- `mapper.NewMapper`: mappers 0–4 are constructed, every other number
is rejected with an error. -/
def NewMapper (mapperNumber : Nat) (data : CartridgeData) : Except String MapperInst :=
  match mapperNumber with
  | 0 => .ok (.m0 (NewMapper0 data))
  | 1 => .ok (.m1 (NewMapper1 data))
  | 2 => .ok (.m2 (NewMapper2 data))
  | 3 => .ok (.m3 (NewMapper3 data))
  | 4 => .ok (.m4 (NewMapper4 data))
  | _ => .error "unsupported mapper"

/-! ## pkg/cartridge/cartridge.go: the iNES loader -/

/-- `cartridge.iNESHeader`. -/
structure INESHeader where
  magic : Nat → Nat
  prgromSize : Nat
  chrromSize : Nat
  flags6 : Nat
  flags7 : Nat
  flags8 : Nat
  flags9 : Nat
  flags10 : Nat

/-- `cartridge.MirroringMode` (Go iota order). -/
inductive MirroringMode where
  | horizontal
  | vertical
  | fourScreen
  | singleScreenA
  | singleScreenB
deriving DecidableEq

/-- `cartridge.Cartridge` as built by the loader. -/
structure Cartridge where
  prgrom : Buf
  chrrom : Buf
  prgram : Buf
  chrram : Buf
  header : INESHeader
  mapperInst : MapperInst
  mirroring : MirroringMode

/-- `io.ReadFull` on a byte stream: exactly `n` bytes or an error. -/
def readFull (bytes : List Nat) (n : Nat) : Except String (List Nat × List Nat) :=
  if n ≤ bytes.length then .ok (bytes.take n, bytes.drop n)
  else .error "unexpected EOF"

/-- A `Buf` holding the given bytes. -/
def bufOfList (l : List Nat) : Buf :=
  { size := l.length, data := fun i => l.getD i 0 }

/-- A zero-filled `Buf` of the given size (Go `make([]uint8, n)`). -/
def bufZero (n : Nat) : Buf :=
  { size := n, data := fun _ => 0 }

/-- `Cartridge.readHeader`: 16 bytes into the header fields. -/
def readHeader (bytes : List Nat) : Except String (INESHeader × List Nat) :=
  match readFull bytes 16 with
  | .error e => .error e
  | .ok (hd, rest) =>
    .ok ({ magic := fun i => hd.getD i 0
           prgromSize := hd.getD 4 0
           chrromSize := hd.getD 5 0
           flags6 := hd.getD 6 0
           flags7 := hd.getD 7 0
           flags8 := hd.getD 8 0
           flags9 := hd.getD 9 0
           flags10 := hd.getD 10 0 }, rest)

/-- The iNES magic bytes "NES\x1A". -/
def magicOK (h : INESHeader) : Prop :=
  h.magic 0 = 0x4E ∧ h.magic 1 = 0x45 ∧ h.magic 2 = 0x53 ∧ h.magic 3 = 0x1A

instance (h : INESHeader) : Decidable (magicOK h) := by
  unfold magicOK; infer_instance

/-- `cartridge.LoadFromReader` over a byte stream: header, magic check,
optional trainer skip, PRG ROM, CHR ROM or synthesized CHR RAM,
battery PRG RAM, header mirroring, and mapper construction via
`NewMapper` with number `(Flags6 >> 4) | (Flags7 & 0xF0)`. -/
def LoadFromReader (bytes : List Nat) : Except String Cartridge :=
  match readHeader bytes with
  | .error e => .error e
  | .ok (header, rest) =>
    if ¬ magicOK header then .error "invalid iNES magic number"
    else
      let afterTrainer : Except String (List Nat) :=
        if header.flags6 &&& 0x04 ≠ 0 then
          match readFull rest 512 with
          | .error _ => .error "failed to read trainer"
          | .ok (_, r) => .ok r
        else .ok rest
      match afterTrainer with
      | .error e => .error e
      | .ok rest =>
        let prgSize := header.prgromSize * 16384
        match readFull rest prgSize with
        | .error _ => .error "failed to read PRG ROM"
        | .ok (prgBytes, rest) =>
          let chrSize := header.chrromSize * 8192
          let chrStep : Except String (Buf × Buf × List Nat) :=
            if chrSize > 0 then
              match readFull rest chrSize with
              | .error _ => .error "failed to read CHR ROM"
              | .ok (chrBytes, r) => .ok (bufOfList chrBytes, bufZero 0, r)
            else
              let mapperNumber := (header.flags6 >>> 4) ||| (header.flags7 &&& 0xF0)
              let chrRAMSize := if mapperNumber = 4 then 32768 else 8192
              .ok (bufZero 0, bufZero chrRAMSize, rest)
          match chrStep with
          | .error e => .error e
          | .ok (chrrom, chrram, _) =>
            let prgram := if header.flags6 &&& 0x02 ≠ 0 then bufZero 32768 else bufZero 0
            let mirroring :=
              if header.flags6 &&& 0x08 ≠ 0 then MirroringMode.fourScreen
              else if header.flags6 &&& 0x01 ≠ 0 then MirroringMode.vertical
              else MirroringMode.horizontal
            let mapperNumber := (header.flags6 >>> 4) ||| (header.flags7 &&& 0xF0)
            let mapperData : CartridgeData :=
              { prgrom := bufOfList prgBytes, chrrom := chrrom
                prgram := prgram, chrram := chrram }
            match NewMapper mapperNumber mapperData with
            | .error _ => .error "failed to create mapper"
            | .ok inst =>
              .ok { prgrom := bufOfList prgBytes, chrrom := chrrom
                    prgram := prgram, chrram := chrram
                    header := header, mapperInst := inst, mirroring := mirroring }

/-! ## pkg/ppu (part 004): registers, VRAM access and the dot clock

The PPU talks to the cartridge through a Go interface; it is modelled
by a record of functions over an abstract cartridge state `σ`.  The
pixel pipeline `renderPixel` (which lives, with the rest of the
package-ppu rendering code, in the concatenation src/pkg/cpu/cpu_test.go)
composites into framebuffers outside the modelled slice; it is passed
to `pStep` as a parameter, and every theorem below either holds for an
arbitrary pipeline or concerns scanlines on which the source never
invokes it.  Its sprite-evaluation step `fetchSpriteData` — the one
place that writes the sprite-overflow bit (PPUSTATUS bit 5) — touches
only modelled fields and is embedded explicitly after `pStep`. -/

/-- The cartridge interface consumed by `PPU.SetCartridge`. -/
structure CartOps (σ : Type) where
  readCHR : σ → Nat → Nat
  writeCHR : σ → Nat → Nat → σ
  stepM : σ → σ
  isIRQPending : σ → Bool
  clearIRQ : σ → σ
  getMirroring : σ → Nat
  notifyA12 : σ → Nat → Bool → σ

/-- `ppu.PPU` (framebuffers and sprite scratch state omitted: they are
touched only by the rendering pipeline, which is kept abstract). -/
structure PPU (σ : Type) where
  ppuctrl : Nat
  ppumask : Nat
  ppustatus : Nat
  oamaddr : Nat
  v : Nat
  t : Nat
  x : Nat
  xTemp : Nat
  w : Nat
  vram : Nat → Nat
  oam : Nat → Nat
  cycle : Int
  scanline : Int
  frame : Nat
  frameComplete : Bool
  nmiRequested : Bool
  renderingOccurred : Bool
  lastRenderFrame : Nat
  paletteManager : PaletteManager
  readBuffer : Nat
  cart : Option σ

/-- PPUCTRL bit 2: VRAM address increment. -/
def PPUCTRLIncrement : Nat := 0x04
/-- PPUCTRL bit 7: generate NMI at VBlank. -/
def PPUCTRLNMIEnable : Nat := 0x80
/-- PPUCTRL bit 3: sprite pattern table. -/
def PPUCTRLSpriteTable : Nat := 0x08
/-- PPUCTRL bit 4: background pattern table. -/
def PPUCTRLBGTable : Nat := 0x10
/-- PPUCTRL bit 5: sprite size (8x16 when set). -/
def PPUCTRLSpriteSize : Nat := 0x20
/-- PPUMASK bit 3: show background. -/
def PPUMASKBGShow : Nat := 0x08
/-- PPUMASK bit 4: show sprites. -/
def PPUMASKSpriteShow : Nat := 0x10
/-- PPUSTATUS bit 6: sprite 0 hit. -/
def PPUSTATUSSprite0Hit : Nat := 0x40
/-- PPUSTATUS bit 7: vertical blank. -/
def PPUSTATUSVBlank : Nat := 0x80

/-- `PPU.applyHorizontalMirroring` (the receiver is unused in Go). -/
def applyHorizontalMirroring (offset : Nat) : Nat :=
  if offset ≥ 0x800 then offset - 0x400 else offset &&& 0x7FF

/-- `PPU.applyVerticalMirroring`. -/
def applyVerticalMirroring (offset : Nat) : Nat :=
  offset &&& 0x7FF

/-- `PPU.mirrorNameTableAddress`: dispatch on the cartridge's mirroring
mode (horizontal when no cartridge is attached). -/
def mirrorNameTableAddress {σ : Type} (co : CartOps σ) (p : PPU σ) (addr : Nat) : Nat :=
  let offset := addr - 0x2000
  match p.cart with
  | none => applyHorizontalMirroring offset + 0x2000
  | some c =>
    if co.getMirroring c = 0 then applyHorizontalMirroring offset + 0x2000
    else if co.getMirroring c = 1 then applyVerticalMirroring offset + 0x2000
    else addr

/-- `PPU.readNameTable`. -/
def readNameTable {σ : Type} (co : CartOps σ) (p : PPU σ) (addr : Nat) : Nat :=
  p.vram (mirrorNameTableAddress co p addr)

/-- `PPU.writeNameTable`. -/
def writeNameTable {σ : Type} (co : CartOps σ) (p : PPU σ) (addr value : Nat) : PPU σ :=
  { p with vram := updf p.vram (mirrorNameTableAddress co p addr) value }

/-- `PPU.readVRAM`: pattern tables through the cartridge (with the A12
notification the source performs on visible rendered scanlines),
nametables with mirroring, palette RAM at $3F00..$3FFF. -/
def ppuReadVRAM {σ : Type} (co : CartOps σ) (p : PPU σ) (addr : Nat) : Nat × PPU σ :=
  let addr := addr % 0x4000
  if addr < 0x2000 then
    match p.cart with
    | some c =>
      let renderingEnabled := p.ppumask &&& (PPUMASKBGShow ||| PPUMASKSpriteShow) ≠ 0
      let isVisibleScanline := 0 ≤ p.scanline ∧ p.scanline < 240
      let c :=
        if renderingEnabled ∧ isVisibleScanline then co.notifyA12 c addr renderingEnabled
        else c
      (co.readCHR c addr, { p with cart := some c })
    | none => (0, p)
  else if addr < 0x3F00 then (readNameTable co p addr, p)
  else if addr < 0x4000 then (ReadPalette p.paletteManager (addr &&& 0x1F), p)
  else (0, p)

/-- `PPU.writeVRAM`. -/
def ppuWriteVRAM {σ : Type} (co : CartOps σ) (p : PPU σ) (addr value : Nat) : PPU σ :=
  let addr := addr % 0x4000
  if addr < 0x2000 then
    match p.cart with
    | some c =>
      let renderingEnabled := p.ppumask &&& (PPUMASKBGShow ||| PPUMASKSpriteShow) ≠ 0
      let isVisibleScanline := 0 ≤ p.scanline ∧ p.scanline < 240
      let c :=
        if renderingEnabled ∧ isVisibleScanline then co.notifyA12 c addr renderingEnabled
        else c
      { p with cart := some (co.writeCHR c addr value) }
    | none => p
  else if addr < 0x3F00 then writeNameTable co p addr value
  else if addr < 0x4000 then
    { p with paletteManager := WritePalette p.paletteManager (addr &&& 0x1F) value }
  else p

/-- `PPU.ReadRegister`: PPUSTATUS (clears vblank and the write toggle),
OAMDATA, and PPUDATA with its read buffer and post-increment. -/
def ppuReadRegister {σ : Type} (co : CartOps σ) (p : PPU σ) (addr : Nat) : Nat × PPU σ :=
  if addr = 0x2002 then
    let value := p.ppustatus
    (value, { p with ppustatus := bclr p.ppustatus PPUSTATUSVBlank, w := 0 })
  else if addr = 0x2004 then
    (p.oam p.oamaddr, p)
  else if addr = 0x2007 then
    let (value, p) :=
      if p.v ≥ 0x3F00 then
        let (value, p) := ppuReadVRAM co p p.v
        let (buf, p) := ppuReadVRAM co p (p.v - 0x1000)
        (value, { p with readBuffer := buf })
      else
        let value := p.readBuffer
        let (buf, p) := ppuReadVRAM co p p.v
        (value, { p with readBuffer := buf })
    if p.ppuctrl &&& PPUCTRLIncrement ≠ 0 then
      (value, { p with v := (p.v + 32) % 65536 })
    else
      (value, { p with v := (p.v + 1) % 65536 })
  else (0, p)

/-- `PPU.WriteRegister`: the eight CPU-visible registers, with the
`t`/`v`/`x`/`w` scroll-latch semantics of the source. -/
def ppuWriteRegister {σ : Type} (co : CartOps σ) (p : PPU σ) (addr value : Nat) : PPU σ :=
  if addr = 0x2000 then
    { p with ppuctrl := value
             t := (p.t &&& 0xF3FF) ||| ((value &&& 0x03) <<< 10) }
  else if addr = 0x2001 then
    { p with ppumask := value }
  else if addr = 0x2003 then
    { p with oamaddr := value }
  else if addr = 0x2004 then
    { p with oam := updf p.oam p.oamaddr value
             oamaddr := (p.oamaddr + 1) % 256 }
  else if addr = 0x2005 then
    if p.w = 0 then
      { p with t := (p.t &&& 0xFFE0) ||| (value >>> 3)
               xTemp := value &&& 0x07
               w := 1 }
    else
      { p with t := (((p.t &&& 0x8FFF) ||| ((value &&& 0x07) <<< 12)) &&& 0xFC1F) |||
                    ((value &&& 0xF8) <<< 2)
               w := 0 }
  else if addr = 0x2006 then
    if p.w = 0 then
      { p with t := (p.t &&& 0x80FF) ||| ((value &&& 0x3F) <<< 8)
               w := 1 }
    else
      let t := (p.t &&& 0xFF00) ||| value
      { p with t := t, v := t, w := 0 }
  else if addr = 0x2007 then
    let p := ppuWriteVRAM co p p.v value
    if p.ppuctrl &&& PPUCTRLIncrement ≠ 0 then
      { p with v := (p.v + 32) % 65536 }
    else
      { p with v := (p.v + 1) % 65536 }
  else p

/-- `PPU.handleMMC3A12Timing`: the per-dot A12 notification the source
issues while rendering is enabled. -/
def handleMMC3A12Timing {σ : Type} (co : CartOps σ) (p : PPU σ) : PPU σ :=
  match p.cart with
  | none => p
  | some c =>
    let renderingEnabled := p.ppumask &&& (PPUMASKBGShow ||| PPUMASKSpriteShow) ≠ 0
    if ¬ renderingEnabled then p
    else
      let bgA12Addr : Nat :=
        if (p.ppuctrl &&& PPUCTRLBGTable) >>> 4 = 0 then 0x0000 else 0x1000
      let sprA12Addr : Nat :=
        if (p.ppuctrl &&& PPUCTRLSpriteTable) >>> 3 = 0 then 0x0000 else 0x1000
      let notify : Option Nat :=
        if (0 ≤ p.cycle ∧ p.cycle ≤ 255) ∨ (320 ≤ p.cycle ∧ p.cycle ≤ 340) then
          some bgA12Addr
        else if 256 ≤ p.cycle ∧ p.cycle ≤ 319 then some sprA12Addr
        else none
      match notify with
      | none => p
      | some a12Addr =>
        let isTileFetchCycle :=
          p.cycle % 8 = 0 ∨ p.cycle % 8 = 2 ∨ p.cycle % 8 = 4 ∨ p.cycle % 8 = 6
        if isTileFetchCycle then
          { p with cart := some (co.notifyA12 c a12Addr renderingEnabled) }
        else p

/-- `PPU.handleFrameCompletion`: bookkeeping of the persistent-frame
machinery (reset the rendering flag, remember the frame that last
rendered). -/
def handleFrameCompletion {σ : Type} (p : PPU σ) : PPU σ :=
  let hadRendering := p.renderingOccurred
  let p := { p with renderingOccurred := false }
  if hadRendering then { p with lastRenderFrame := p.frame } else p

/-- `PPU.Step`, first phase: emphasis update and, on visible scanlines,
the pixel pipeline followed by the per-dot A12 notification. -/
def pStepRender {σ : Type} (co : CartOps σ) (renderPx : PPU σ → PPU σ) (p : PPU σ) : PPU σ :=
  let p : PPU σ :=
    { p with paletteManager := SetEmphasis p.paletteManager (p.ppumask &&& 0xE0) }
  if 0 ≤ p.scanline ∧ p.scanline < 240 then
    handleMMC3A12Timing co (renderPx p)
  else p

/-- `PPU.Step`, scanline-increment phase: fires when the dot counter
wraps; advances the scanline, clocks the mapper on visible lines, sets
vblank (clearing sprite-0-hit, requesting NMI) on entering line 241 and
wraps to the pre-render line (clearing vblank) past line 260. -/
def pStepAdvance {σ : Type} (co : CartOps σ) (p : PPU σ) : PPU σ :=
  let p : PPU σ := { p with cycle := p.cycle + 1 }
  if p.cycle ≥ 341 then
    let p : PPU σ := { p with cycle := 0, scanline := p.scanline + 1 }
    let p : PPU σ :=
      if p.cart.isSome ∧ 0 ≤ p.scanline ∧ p.scanline < 240 then
        match p.cart with
        | some c => { p with cart := some (co.stepM c) }
        | none => p
      else p
    let p : PPU σ :=
      if p.scanline = 241 then
        let p : PPU σ := { p with ppustatus := p.ppustatus ||| PPUSTATUSVBlank }
        let p : PPU σ := { p with ppustatus := bclr p.ppustatus PPUSTATUSSprite0Hit }
        if p.ppuctrl &&& PPUCTRLNMIEnable ≠ 0 then { p with nmiRequested := true }
        else p
      else p
    if p.scanline ≥ 261 then
      let p : PPU σ := { p with scanline := -1, frameComplete := true }
      let p : PPU σ := handleFrameCompletion p
      let p : PPU σ := { p with frame := p.frame + 1 }
      { p with ppustatus := bclr p.ppustatus PPUSTATUSVBlank }
    else p
  else p

/-- `PPU.Step`, scroll-copy phase: the pre-render vertical/horizontal
copies and the per-scanline horizontal copy at dot 0. -/
def pStepScroll {σ : Type} (p : PPU σ) : PPU σ :=
  let p : PPU σ :=
    if p.scanline = -1 then
      let p : PPU σ :=
        if p.cycle = 304 ∧ p.ppumask &&& (PPUMASKBGShow ||| PPUMASKSpriteShow) ≠ 0 then
          { p with v := (p.v &&& 0x841F) ||| (p.t &&& 0x7BE0) }
        else p
      if p.cycle = 257 ∧ p.ppumask &&& (PPUMASKBGShow ||| PPUMASKSpriteShow) ≠ 0 then
        { p with v := (p.v &&& 0xFBE0) ||| (p.t &&& 0x041F) }
      else p
    else p
  if 0 ≤ p.scanline ∧ p.scanline < 240 then
    if p.cycle = 0 ∧ p.ppumask &&& (PPUMASKBGShow ||| PPUMASKSpriteShow) ≠ 0 then
      { p with v := (p.v &&& 0xFBE0) ||| (p.t &&& 0x041F), x := p.xTemp }
    else p
  else p

/-- `PPU.Step`: one PPU dot.  `renderPx` stands for the source's
`renderPixel`, invoked only on visible scanlines. -/
def pStep {σ : Type} (co : CartOps σ) (renderPx : PPU σ → PPU σ) (p : PPU σ) : PPU σ :=
  pStepScroll (pStepAdvance co (pStepRender co renderPx p))

/-! ### Sprite evaluation (package-ppu rendering code)

`renderPixel` caches `p.currentSprites = p.fetchSpriteData(p.Scanline)`
at dot 0 of every visible scanline.  `fetchSpriteData` scans the 64 OAM
entries for sprites that cover the scanline and, upon collecting the
eighth, sets the sprite-overflow bit (`p.PPUSTATUS |= 0x20`, i.e.
PPUSTATUS bit 5) and breaks out of the loop; no statement in the
package ever clears that bit. -/

/-- `ppu.SpriteData`. -/
structure SpriteData where
  y : Nat
  tileIndex : Nat
  attributes : Nat
  x : Nat

/-- `ppu.SpriteInfo`. -/
structure SpriteInfo where
  spriteData : SpriteData
  oamIndex : Nat

/-- The `for i := 0; i < 64; i++` loop of `fetchSpriteData`, with
explicit fuel (64 at entry, so the guard and the fuel run out
together). -/
def fetchSpriteLoop {σ : Type} (scanline spriteHeight : Int) :
    Nat → Nat → List SpriteInfo → PPU σ → List SpriteInfo × PPU σ
  | 0, _, sprites, p => (sprites, p)
  | fuel + 1, i, sprites, p =>
    if i < 64 then
      let spriteY : Int := p.oam (i * 4)
      if scanline ≥ spriteY ∧ scanline < spriteY + spriteHeight then
        let sprite : SpriteInfo :=
          { spriteData :=
              { y := p.oam (i * 4), tileIndex := p.oam (i * 4 + 1)
                attributes := p.oam (i * 4 + 2), x := p.oam (i * 4 + 3) }
            oamIndex := i }
        let sprites := sprites ++ [sprite]
        if sprites.length ≥ 8 then
          (sprites, { p with ppustatus := p.ppustatus ||| 0x20 })
        else fetchSpriteLoop scanline spriteHeight fuel (i + 1) sprites p
      else fetchSpriteLoop scanline spriteHeight fuel (i + 1) sprites p
    else (sprites, p)

/-- `PPU.fetchSpriteData`: collect the sprites on `scanline` (8x16 when
PPUCTRL bit 5 is set, else 8x8), setting the sprite-overflow bit on the
eighth hit. -/
def fetchSpriteData {σ : Type} (p : PPU σ) (scanline : Int) :
    List SpriteInfo × PPU σ :=
  let spriteHeight : Int := if p.ppuctrl &&& PPUCTRLSpriteSize ≠ 0 then 16 else 8
  fetchSpriteLoop scanline spriteHeight 64 0 [] p

/-! ## pkg/memory/memory.go

The Go `Memory` holds interface references to PPU, APU, cartridge and
input; the CPU-side cartridge interface is a record of functions over
an abstract state `τ` (the PPU-side one is `CartOps σ`). -/

/-- The cartridge interface consumed by `Memory.SetCartridge`. -/
structure PRGOps (τ : Type) where
  readPRG : τ → Nat → Nat
  writePRG : τ → Nat → Nat → τ

/-- `memory.Memory`. -/
structure Mem (σ τ : Type) where
  ram : Nat → Nat
  highMem : Nat → Nat
  ppu : Option (PPU σ)
  apu : Option APU
  cart : Option τ
  input : Option Controller

/-- `Memory.Read`: RAM mirrors, cartridge space, PPU register mirrors,
controller 1, controller 2/APU frame counter, APU registers, then open
bus (0).  Reads are effectful: PPU, APU and controller reads mutate the
target device. -/
def memRead {σ τ : Type} (co : CartOps σ) (mo : PRGOps τ) (m : Mem σ τ) (addr : Nat) :
    Nat × Mem σ τ :=
  if addr < 0x2000 then
    (m.ram (addr &&& 0x7FF), m)
  else if addr ≥ 0x6000 then
    match m.cart with
    | some c => (mo.readPRG c addr, m)
    | none =>
      let index := addr - 0x6000
      if index ≥ 0xA000 then (0, m) else (m.highMem index, m)
  else if addr < 0x4000 then
    match m.ppu with
    | some p =>
      let (v, p) := ppuReadRegister co p (0x2000 + (addr &&& 0x7))
      (v, { m with ppu := some p })
    | none => (0, m)
  else if addr = 0x4016 then
    match m.input with
    | some c =>
      let (v, c) := ctrlRead c
      (v, { m with input := some c })
    | none => (0, m)
  else if addr = 0x4017 then
    match m.apu with
    | some a =>
      let (v, a) := apuReadRegister a addr
      (v, { m with apu := some a })
    | none => (0, m)
  else if addr < 0x4020 then
    match m.apu with
    | some a =>
      let (v, a) := apuReadRegister a addr
      (v, { m with apu := some a })
    | none => (0, m)
  else (0, m)

/-- One iteration of the `performOAMDMA` copy loop: read the source
byte over the bus and write it to OAMDATA ($2004) when a PPU is
attached. -/
def dmaOne {σ τ : Type} (co : CartOps σ) (mo : PRGOps τ) (m : Mem σ τ) (baseAddr i : Nat) :
    Mem σ τ :=
  let (value, m) := memRead co mo m (baseAddr + i)
  match m.ppu with
  | some p => { m with ppu := some (ppuWriteRegister co p 0x2004 value) }
  | none => m

/-- The `performOAMDMA` loop from index `i`, with `fuel` iterations
remaining. -/
def dmaFrom {σ τ : Type} (co : CartOps σ) (mo : PRGOps τ) (m : Mem σ τ) (baseAddr : Nat) :
    Nat → Nat → Mem σ τ
  | _, 0 => m
  | i, fuel + 1 => dmaFrom co mo (dmaOne co mo m baseAddr i) baseAddr (i + 1) fuel

/-- `Memory.performOAMDMA`: 256 bus reads from page `page<<8` written
to OAMDATA in sequence. -/
def performOAMDMA {σ τ : Type} (co : CartOps σ) (mo : PRGOps τ) (m : Mem σ τ) (page : Nat) :
    Mem σ τ :=
  dmaFrom co mo m (page <<< 8) 0 256

/-- `Memory.Write`: RAM mirrors, PPU register mirrors, OAM DMA at
$4014, controller strobe at $4016, APU registers, cartridge space. -/
def memWrite {σ τ : Type} (co : CartOps σ) (mo : PRGOps τ) (m : Mem σ τ) (addr value : Nat) :
    Mem σ τ :=
  if addr < 0x2000 then
    { m with ram := updf m.ram (addr % 0x800) value }
  else if addr < 0x4000 then
    match m.ppu with
    | some p => { m with ppu := some (ppuWriteRegister co p (0x2000 + (addr &&& 0x7)) value) }
    | none => m
  else if addr = 0x4014 then
    performOAMDMA co mo m value
  else if addr = 0x4016 then
    match m.input with
    | some c => { m with input := some (ctrlWrite c value) }
    | none => m
  else if addr < 0x4020 then
    match m.apu with
    | some a => { m with apu := some (apuWriteRegister a addr value) }
    | none => m
  else if addr ≥ 0x6000 then
    match m.cart with
    | some c => { m with cart := some (mo.writePRG c addr value) }
    | none =>
      let index := addr - 0x6000
      if index ≥ 0xA000 then m
      else { m with highMem := updf m.highMem index value }
  else m

/-! ## pkg/cpu/cpu.go and instructions.go

`CPU.Step` dispatches on the opcode through `executeInstruction`; the
dispatcher is passed to `cpuStep` as a function parameter and the
individual handlers used by the claims (`execNOP`, `execSTA`) are
embedded from the source. -/

/-- Status flag bit C. -/
def FlagCarry : Nat := 1 <<< 0
/-- Status flag bit Z. -/
def FlagZero : Nat := 1 <<< 1
/-- Status flag bit I. -/
def FlagInterrupt : Nat := 1 <<< 2
/-- Status flag bit D. -/
def FlagDecimal : Nat := 1 <<< 3
/-- Status flag bit B. -/
def FlagBreak : Nat := 1 <<< 4
/-- Status flag bit U (unused). -/
def FlagUnused : Nat := 1 <<< 5
/-- Status flag bit V. -/
def FlagOverflow : Nat := 1 <<< 6
/-- Status flag bit N. -/
def FlagNegative : Nat := 1 <<< 7

/-- `cpu.CPU` over the memory bus. -/
structure CPUSt (σ τ : Type) where
  a : Nat
  x : Nat
  y : Nat
  sp : Nat
  pc : Nat
  p : Nat
  mem : Mem σ τ
  cycles : Int
  nmi : Bool
  irq : Bool

/-- `CPU.getFlag`. -/
def getFlag {σ τ : Type} (c : CPUSt σ τ) (flag : Nat) : Bool :=
  c.p &&& flag ≠ 0

/-- `CPU.setFlag`. -/
def setFlag {σ τ : Type} (c : CPUSt σ τ) (flag : Nat) (value : Bool) : CPUSt σ τ :=
  if value then { c with p := c.p ||| flag } else { c with p := bclr c.p flag }

/-- `CPU.read`: a bus read (effectful). -/
def cpuRead {σ τ : Type} (co : CartOps σ) (mo : PRGOps τ) (c : CPUSt σ τ) (addr : Nat) :
    Nat × CPUSt σ τ :=
  let (v, m) := memRead co mo c.mem addr
  (v, { c with mem := m })

/-- `CPU.write`. -/
def cpuWrite {σ τ : Type} (co : CartOps σ) (mo : PRGOps τ) (c : CPUSt σ τ) (addr value : Nat) :
    CPUSt σ τ :=
  { c with mem := memWrite co mo c.mem addr value }

/-- `CPU.read16`: little-endian 16-bit read (the `addr + 1` wraps as a
Go `uint16`). -/
def cpuRead16 {σ τ : Type} (co : CartOps σ) (mo : PRGOps τ) (c : CPUSt σ τ) (addr : Nat) :
    Nat × CPUSt σ τ :=
  let (lo, c) := cpuRead co mo c addr
  let (hi, c) := cpuRead co mo c ((addr + 1) % 65536)
  (hi <<< 8 ||| lo, c)

/-- `CPU.push`: write to $0100+SP, then decrement SP (wrapping). -/
def cpuPush {σ τ : Type} (co : CartOps σ) (mo : PRGOps τ) (c : CPUSt σ τ) (value : Nat) :
    CPUSt σ τ :=
  let c := cpuWrite co mo c (0x100 ||| c.sp) value
  { c with sp := (c.sp + 255) % 256 }

/-- `CPU.push16`: high byte first. -/
def cpuPush16 {σ τ : Type} (co : CartOps σ) (mo : PRGOps τ) (c : CPUSt σ τ) (value : Nat) :
    CPUSt σ τ :=
  let c := cpuPush co mo c (value >>> 8)
  cpuPush co mo c (value &&& 0xFF)

/-- `CPU.handleNMI`: push PC and P, set I, load PC from $FFFA. -/
def handleNMI {σ τ : Type} (co : CartOps σ) (mo : PRGOps τ) (c : CPUSt σ τ) : CPUSt σ τ :=
  let c := cpuPush16 co mo c c.pc
  let c := cpuPush co mo c c.p
  let c := setFlag c FlagInterrupt true
  let (vec, c) := cpuRead16 co mo c 0xFFFA
  { c with pc := vec }

/-- `CPU.handleIRQ`: push PC and P, set I, load PC from $FFFE.  Present
in the source but never called by `Step`. -/
def handleIRQ {σ τ : Type} (co : CartOps σ) (mo : PRGOps τ) (c : CPUSt σ τ) : CPUSt σ τ :=
  let c := cpuPush16 co mo c c.pc
  let c := cpuPush co mo c c.p
  let c := setFlag c FlagInterrupt true
  let (vec, c) := cpuRead16 co mo c 0xFFFE
  { c with pc := vec }

/-- `CPU.Step`: service a pending NMI (7 cycles); otherwise — with the
source's IRQ handling disabled: an asserted IRQ line with I clear is
merely cleared — fetch and execute one instruction through `exec` and
accumulate its cycle count. -/
def cpuStep {σ τ : Type} (co : CartOps σ) (mo : PRGOps τ)
    (exec : Nat → CPUSt σ τ → CPUSt σ τ × Int) (c : CPUSt σ τ) : CPUSt σ τ × Int :=
  if c.nmi then
    let c := handleNMI co mo c
    let c := { c with nmi := false }
    (c, 7)
  else
    let c :=
      if c.irq ∧ ¬ getFlag c FlagInterrupt then
        -- Source: "Temporarily disable IRQ handling to prevent
        -- freezes"; the calls to handleIRQ and `return 7` are
        -- commented out.
        { c with irq := false }
      else c
    let (opcode, c) := cpuRead co mo c c.pc
    let c := { c with pc := (c.pc + 1) % 65536 }
    let (c, cycles) := exec opcode c
    ({ c with cycles := c.cycles + cycles }, cycles)

/-- `cpu.AddressingMode`. -/
inductive AddressingMode where
  | implied
  | accumulator
  | immediate
  | zeroPage
  | zeroPageX
  | zeroPageY
  | relative
  | absolute
  | absoluteX
  | absoluteY
  | indirect
  | indexedIndirect
  | indirectIndexed
deriving DecidableEq

/-- `CPU.getOperandAddress`: operand resolution, including the page
crossings and the observable dummy reads of the source. -/
def getOperandAddress {σ τ : Type} (co : CartOps σ) (mo : PRGOps τ) (c : CPUSt σ τ) :
    AddressingMode → (Nat × Bool) × CPUSt σ τ
  | .implied => ((0, false), c)
  | .accumulator => ((0, false), c)
  | .immediate =>
    let addr := c.pc
    (((addr, false)), { c with pc := (c.pc + 1) % 65536 })
  | .zeroPage =>
    let (v, c) := cpuRead co mo c c.pc
    ((v, false), { c with pc := (c.pc + 1) % 65536 })
  | .zeroPageX =>
    let (v, c) := cpuRead co mo c c.pc
    let addr := (v + c.x) % 256
    ((addr &&& 0xFF, false), { c with pc := (c.pc + 1) % 65536 })
  | .zeroPageY =>
    let (v, c) := cpuRead co mo c c.pc
    let addr := (v + c.y) % 256
    ((addr &&& 0xFF, false), { c with pc := (c.pc + 1) % 65536 })
  | .relative =>
    let (v, c) := cpuRead co mo c c.pc
    let offset : Int := if v ≥ 128 then (v : Int) - 256 else (v : Int)
    let c := { c with pc := (c.pc + 1) % 65536 }
    let addr := (((c.pc : Int) + offset) % 65536).toNat
    let pageCrossed := (c.pc &&& 0xFF00) ≠ (addr &&& 0xFF00)
    ((addr, pageCrossed), c)
  | .absolute =>
    let (addr, c) := cpuRead16 co mo c c.pc
    ((addr, false), { c with pc := (c.pc + 2) % 65536 })
  | .absoluteX =>
    let (base, c) := cpuRead16 co mo c c.pc
    let c := { c with pc := (c.pc + 2) % 65536 }
    let addr := (base + c.x) % 65536
    let pageCrossed := (base &&& 0xFF00) ≠ (addr &&& 0xFF00)
    if pageCrossed then
      let dummyAddr := (base &&& 0xFF00) ||| ((base + c.x) &&& 0xFF)
      let (_, c) := cpuRead co mo c dummyAddr
      ((addr, pageCrossed), c)
    else ((addr, pageCrossed), c)
  | .absoluteY =>
    let (base, c) := cpuRead16 co mo c c.pc
    let c := { c with pc := (c.pc + 2) % 65536 }
    let addr := (base + c.y) % 65536
    let pageCrossed := (base &&& 0xFF00) ≠ (addr &&& 0xFF00)
    if pageCrossed then
      let dummyAddr := (base &&& 0xFF00) ||| ((base + c.y) &&& 0xFF)
      let (_, c) := cpuRead co mo c dummyAddr
      ((addr, pageCrossed), c)
    else ((addr, pageCrossed), c)
  | .indirect =>
    let (ptr, c) := cpuRead16 co mo c c.pc
    let c := { c with pc := (c.pc + 2) % 65536 }
    if ptr &&& 0xFF = 0xFF then
      let (lo, c) := cpuRead co mo c ptr
      let (hi, c) := cpuRead co mo c (ptr &&& 0xFF00)
      ((hi <<< 8 ||| lo, false), c)
    else
      let (addr, c) := cpuRead16 co mo c ptr
      ((addr, false), c)
  | .indexedIndirect =>
    let (base, c) := cpuRead co mo c c.pc
    let c := { c with pc := (c.pc + 1) % 65536 }
    let ptr := (base + c.x) &&& 0xFF
    let (lo, c) := cpuRead co mo c ptr
    let (hi, c) := cpuRead co mo c ((ptr + 1) &&& 0xFF)
    ((hi <<< 8 ||| lo, false), c)
  | .indirectIndexed =>
    let (base, c) := cpuRead co mo c c.pc
    let c := { c with pc := (c.pc + 1) % 65536 }
    let (lo, c) := cpuRead co mo c base
    let (hi, c) := cpuRead co mo c ((base + 1) &&& 0xFF)
    let baseAddr := hi <<< 8 ||| lo
    let addr := (baseAddr + c.y) % 65536
    let pageCrossed := (baseAddr &&& 0xFF00) ≠ (addr &&& 0xFF00)
    if pageCrossed then
      let dummyAddr := (baseAddr &&& 0xFF00) ||| ((baseAddr + c.y) &&& 0xFF)
      let (_, c) := cpuRead co mo c dummyAddr
      ((addr, pageCrossed), c)
    else ((addr, pageCrossed), c)

/-- `cpu.getStoreCycles`. -/
def getStoreCycles : AddressingMode → Int
  | .zeroPage => 3
  | .zeroPageX => 4
  | .zeroPageY => 4
  | .absolute => 4
  | .absoluteX => 5
  | .absoluteY => 5
  | .indexedIndirect => 6
  | .indirectIndexed => 6
  | _ => 3

/-- `CPU.execSTA`: resolve the operand address, store A, return the
store cycle count. -/
def execSTA {σ τ : Type} (co : CartOps σ) (mo : PRGOps τ) (mode : AddressingMode)
    (c : CPUSt σ τ) : CPUSt σ τ × Int :=
  let ((addr, _), c) := getOperandAddress co mo c mode
  let c := cpuWrite co mo c addr c.a
  (c, getStoreCycles mode)

/-- `CPU.execNOP`. -/
def execNOP {σ τ : Type} (c : CPUSt σ τ) : CPUSt σ τ × Int :=
  (c, 2)

/-- The fragment of `CPU.executeInstruction` exercised by the claims:
opcode $EA dispatches to `execNOP` and opcode $8D to
`execSTA(AddrAbsolute)`; the remaining opcodes of the source's switch
are not needed and fall back to NOP here. -/
def execOp {σ τ : Type} (co : CartOps σ) (mo : PRGOps τ) (opcode : Nat) (c : CPUSt σ τ) :
    CPUSt σ τ × Int :=
  if opcode = 0x8D then execSTA co mo .absolute c
  else execNOP c

/-! ## Shared instances and helper lemmas for the theorems -/

/-- A cartridge interface over a trivial state, reporting the given
mirroring mode (used to instantiate the PPU's Go interface). -/
def unitCartOps (mir : Nat) : CartOps Unit :=
  { readCHR := fun _ _ => 0
    writeCHR := fun c _ _ => c
    stepM := fun c => c
    isIRQPending := fun _ => false
    clearIRQ := fun c => c
    getMirroring := fun _ => mir
    notifyA12 := fun c _ _ => c }

/-- A CPU-side cartridge interface over a trivial state. -/
def unitPRGOps : PRGOps Unit := { readPRG := fun _ _ => 0, writePRG := fun c _ _ => c }

/-- The CPU-side interface of `Mapper0`. -/
def mapper0Ops : PRGOps Mapper0 :=
  { readPRG := mapper0ReadPRG, writePRG := mapper0WritePRG }

/-- Whether an `Except` result is a success. -/
def isOkB {ε α : Type} : Except ε α → Bool
  | .ok _ => true
  | .error _ => false

/-- `List.getD` commutes with `take` below the cut. -/
theorem getD_take (l : List Nat) (n i : Nat) (h : i < n) :
    (l.take n).getD i 0 = l.getD i 0 := by
  simp [List.getD_eq_getElem?_getD, List.getElem?_take, h]

/-! ## C9: Mapper 0 PRG mirroring for 16 KiB ROMs -/

/-- C9: with a 16 KiB PRG ROM under Mapper 0, every CPU read of
$8000+k returns the same byte as a CPU read of $C000+k
(k in 0..$3FFF): both fold onto PRG[k]. -/
theorem c9_mapper0_prg_mirror {σ : Type} (co : CartOps σ) (d : CartridgeData)
    (m : Mem σ Mapper0) (k : Nat)
    (hlen : d.prgrom.size = 16384) (hk : k < 0x4000)
    (hcart : m.cart = some (NewMapper0 d)) :
    (memRead co mapper0Ops m (0x8000 + k)).1 = (memRead co mapper0Ops m (0xC000 + k)).1 ∧
    (memRead co mapper0Ops m (0x8000 + k)).1 = d.prgrom.data k := by
  have h1 : ¬ (0x8000 + k < 0x2000) := by omega
  have h2 : (0x8000 + k) ≥ 0x6000 := by omega
  have h3 : ¬ (0xC000 + k < 0x2000) := by omega
  have h4 : (0xC000 + k) ≥ 0x6000 := by omega
  have hmod1 : (0x8000 + k - 0x8000) = k := by omega
  have hmod2 : (0xC000 + k - 0x8000) = 0x4000 + k := by omega
  have hk1 : k % 16384 = k := Nat.mod_eq_of_lt (by omega)
  have hk2 : (0x4000 + k) % 16384 = k := by
    rw [Nat.add_mod_left, hk1]
  simp only [memRead, h1, h2, h3, h4, if_false, if_true, if_pos, if_neg, hcart,
    mapper0Ops, NewMapper0, mapper0ReadPRG]
  norm_num [hmod1, hmod2, hlen, hk1, hk2]
  simp [show (0x8000:Nat) ≤ 0xC000 + k by omega, show k < 16384 by omega]

/-- A 16 KiB all-$42 cartridge for the C9 witness. -/
def c9Data : CartridgeData :=
  { prgrom := { size := 16384, data := fun _ => 0x42 }
    chrrom := bufZero 0, prgram := bufZero 0, chrram := bufZero 0 }

/-- A bus with only the Mapper-0 cartridge attached. -/
def c9Mem : Mem Unit Mapper0 :=
  { ram := fun _ => 0, highMem := fun _ => 0, ppu := none, apu := none
    cart := some (NewMapper0 c9Data), input := none }

/-- C9 witness: scenario C of the specification — reads of $8000 and
$C000 both return the $42 stored at PRG[0]. -/
theorem c9_mapper0_prg_mirror_witness :
    (memRead (unitCartOps 0) mapper0Ops c9Mem (0x8000 + 0)).1 =
      (memRead (unitCartOps 0) mapper0Ops c9Mem (0xC000 + 0)).1 ∧
    (memRead (unitCartOps 0) mapper0Ops c9Mem (0x8000 + 0)).1 = 0x42 :=
  c9_mapper0_prg_mirror (unitCartOps 0) c9Data c9Mem 0 rfl (by decide) rfl

/-! ## C10: unknown mapper numbers are rejected by the loader -/

/-- `NewMapper` fails on every number above 4. -/
theorem newMapper_unsupported (n : Nat) (d : CartridgeData) (h : 4 < n) :
    NewMapper n d = .error "unsupported mapper" := by
  obtain ⟨m, rfl⟩ : ∃ m, n = m + 5 := ⟨n - 5, by omega⟩
  rfl

/-- C10: the loader computes the mapper number as
`(Flags6 >> 4) | (Flags7 & 0xF0)` (header bytes 6 and 7); whenever that
number lies outside {0,1,2,3,4} it returns an error instead of a
cartridge. -/
theorem c10_unknown_mapper_rejected (bytes : List Nat)
    (h : 4 < (bytes.getD 6 0 >>> 4) ||| (bytes.getD 7 0 &&& 0xF0)) :
    isOkB (LoadFromReader bytes) = false := by
  unfold LoadFromReader
  unfold readHeader readFull
  by_cases h16 : 16 ≤ bytes.length
  · simp only [h16, if_true, if_pos]
    have hf6 : (bytes.take 16).getD 6 0 = bytes.getD 6 0 := getD_take _ _ _ (by omega)
    have hf7 : (bytes.take 16).getD 7 0 = bytes.getD 7 0 := getD_take _ _ _ (by omega)
    split
    · rfl
    · split
      · rfl
      · split
        · rfl
        · split
          · rfl
          · rw [newMapper_unsupported _ _ (by simpa [hf6, hf7] using h)]
            rfl
  · simp [h16, isOkB]

/-- A 16-byte iNES header requesting mapper 5 (flags6 = $50) and no ROM
data. -/
def c10Bytes : List Nat :=
  [0x4E, 0x45, 0x53, 0x1A, 0, 0, 0x50, 0, 0, 0, 0, 0, 0, 0, 0, 0]

/-- C10 witness: a file whose header names mapper 5 fails to load. -/
theorem c10_unknown_mapper_rejected_witness :
    4 < (c10Bytes.getD 6 0 >>> 4) ||| (c10Bytes.getD 7 0 &&& 0xF0) ∧
    isOkB (LoadFromReader c10Bytes) = false :=
  ⟨by decide, c10_unknown_mapper_rejected c10Bytes (by decide)⟩

/-! ## C2: the MMC3 IRQ counter -/

/-- Field-level description of one `Mapper4.Step` clock. -/
theorem mapper4Step_fields (t : Mapper4) :
    (mapper4Step t).irqReloadValue = t.irqReloadValue ∧
    (mapper4Step t).irqEnabled = t.irqEnabled ∧
    (mapper4Step t).isSharpMMC3 = t.isSharpMMC3 ∧
    (mapper4Step t).irqReloadFlag = false ∧
    (mapper4Step t).irqCounter =
      (if t.irqReloadFlag then t.irqReloadValue
       else if t.irqCounter = 0 then t.irqReloadValue
       else t.irqCounter - 1) ∧
    (mapper4Step t).irqPending =
      (t.irqPending ||
        (if t.isSharpMMC3 then
          decide ((mapper4Step t).irqCounter = 0 ∧ t.irqEnabled)
         else
          decide ((mapper4Step t).irqCounter = 0 ∧ t.irqEnabled ∧ t.irqReloadValue > 0))) := by
  unfold mapper4Step
  split_ifs <;> (try simp_all) <;> (try split_ifs) <;> (try simp_all) <;> omega

/-- `Mapper4.Step` never clears a pending IRQ. -/
theorem mapper4Step_pending_mono (t : Mapper4) (h : t.irqPending = true) :
    (mapper4Step t).irqPending = true := by
  unfold mapper4Step
  split_ifs <;> simp_all

/-- Iterated stepping splits into two runs. -/
theorem mapper4StepN_add (m : Mapper4) (a b : Nat) :
    mapper4StepN m (a + b) = mapper4StepN (mapper4StepN m a) b := by
  induction b with
  | zero => rfl
  | succ b ih => simp [mapper4StepN, ← Nat.add_assoc, ih]

/-- Iterated stepping keeps a pending IRQ pending. -/
theorem mapper4StepN_pending_mono (t : Mapper4) (n : Nat) (h : t.irqPending = true) :
    (mapper4StepN t n).irqPending = true := by
  induction n with
  | zero => exact h
  | succ n ih => exact mapper4Step_pending_mono _ ih

/-- The MMC3 register state established by writing the latch to $C000,
the reload strobe to $C001 and the enable strobe to $E001. -/
def mmc3IRQSetup (m : Mapper4) (latch v1 v2 : Nat) : Mapper4 :=
  mapper4WritePRG (mapper4WritePRG (mapper4WritePRG m 0xC000 latch) 0xC001 v1) 0xE001 v2

/-- The register writes leave: latch stored, reload flag set, counter
cleared, IRQ enabled, pending and chip variant untouched. -/
theorem mmc3IRQSetup_fields (m : Mapper4) (latch v1 v2 : Nat) :
    (mmc3IRQSetup m latch v1 v2).irqReloadValue = latch ∧
    (mmc3IRQSetup m latch v1 v2).irqReloadFlag = true ∧
    (mmc3IRQSetup m latch v1 v2).irqCounter = 0 ∧
    (mmc3IRQSetup m latch v1 v2).irqEnabled = true ∧
    (mmc3IRQSetup m latch v1 v2).irqPending = m.irqPending ∧
    (mmc3IRQSetup m latch v1 v2).isSharpMMC3 = m.isSharpMMC3 := by
  have e1 : (0xC000 &&& 0xE001 : Nat) = 0xC000 := by decide
  have e2 : (0xC001 &&& 0xE001 : Nat) = 0xC001 := by decide
  have e3 : (0xE001 &&& 0xE001 : Nat) = 0xE001 := by decide
  simp [mmc3IRQSetup, mapper4WritePRG, e1, e2, e3]

/-- After the setup writes, the first `n` edges with `1 ≤ n ≤ L` leave
the counter at `L-(n-1)`, the reload flag clear, and no pending IRQ
(Sharp variant, pending initially clear). -/
theorem mmc3_early_edges (m : Mapper4) (L v1 v2 n : Nat)
    (hp : m.irqPending = false) (hs : m.isSharpMMC3 = true)
    (h1 : 1 ≤ n) (hn : n ≤ L) :
    (mapper4StepN (mmc3IRQSetup m L v1 v2) n).irqReloadValue = L ∧
    (mapper4StepN (mmc3IRQSetup m L v1 v2) n).irqEnabled = true ∧
    (mapper4StepN (mmc3IRQSetup m L v1 v2) n).isSharpMMC3 = true ∧
    (mapper4StepN (mmc3IRQSetup m L v1 v2) n).irqReloadFlag = false ∧
    (mapper4StepN (mmc3IRQSetup m L v1 v2) n).irqCounter = L - (n - 1) ∧
    (mapper4StepN (mmc3IRQSetup m L v1 v2) n).irqPending = false := by
  induction n with
  | zero => omega
  | succ n ih =>
    rcases Nat.eq_zero_or_pos n with hn0 | hn1
    · subst hn0
      obtain ⟨f1, f2, f3, f4, f5, f6⟩ := mmc3IRQSetup_fields m L v1 v2
      obtain ⟨e1, e2, e3, e4, e5, e6⟩ := mapper4Step_fields (mmc3IRQSetup m L v1 v2)
      simp only [mapper4StepN]
      have hL1 : ¬ (L = 0) := by omega
      refine ⟨by simp_all, by simp_all, by simp_all, e4, ?_, ?_⟩
      · simp [e5, f1, f2]
      · simp [e6, f5, f6, hp, hs, e5, f1, f2, f4, hL1]
    · have ihh := ih (by omega) (by omega)
      obtain ⟨e1, e2, e3, e4, e5, e6⟩ := ihh
      obtain ⟨g1, g2, g3, g4, g5, g6⟩ :=
        mapper4Step_fields (mapper4StepN (mmc3IRQSetup m L v1 v2) n)
      simp only [mapper4StepN]
      have hc : ¬ (L - (n - 1) = 0) := by omega
      have hc2 : ¬ (L - (n - 1) - 1 = 0) := by omega
      refine ⟨by simp_all, by simp_all, by simp_all, g4, ?_, ?_⟩
      · simp [g5, e4, e5, e1, hc]
        omega
      · simp [g6, e6, e3, g5, e4, e5, e1, e2, hc, hc2]

/-- The `(L+1)`-th edge raises the pending IRQ. -/
theorem mmc3_fires_at (m : Mapper4) (L v1 v2 : Nat)
    (hp : m.irqPending = false) (hs : m.isSharpMMC3 = true) :
    (mapper4StepN (mmc3IRQSetup m L v1 v2) (L + 1)).irqPending = true := by
  rcases Nat.eq_zero_or_pos L with hL0 | hL1
  · subst hL0
    obtain ⟨f1, f2, f3, f4, f5, f6⟩ := mmc3IRQSetup_fields m 0 v1 v2
    obtain ⟨e1, e2, e3, e4, e5, e6⟩ := mapper4Step_fields (mmc3IRQSetup m 0 v1 v2)
    simp only [mapper4StepN]
    simp [e6, f5, f6, hp, hs, e5, f1, f2, f4]
  · have hpre := mmc3_early_edges m L v1 v2 L hp hs hL1 le_rfl
    obtain ⟨e1, e2, e3, e4, e5, e6⟩ := hpre
    obtain ⟨g1, g2, g3, g4, g5, g6⟩ :=
      mapper4Step_fields (mapper4StepN (mmc3IRQSetup m L v1 v2) L)
    simp only [mapper4StepN]
    have hc : ¬ (L - (L - 1) = 0) := by omega
    have hc2 : L - (L - 1) - 1 = 0 := by omega
    simp [g6, e6, e3, g5, e4, e5, e2, hc, hc2]

/-- C2: after writing latch L to $C000, the reload strobe to $C001 and
the enable strobe to $E001 (Sharp MMC3, no IRQ already pending),
`irq_pending()` is false for the first L filtered A12 edges, becomes
true exactly on the (L+1)-th edge, stays true on every later edge, and
a write to $E000 clears it. -/
theorem c2_mmc3_irq_latch (m : Mapper4) (L v1 v2 : Nat) (hL : L < 256)
    (hp : m.irqPending = false) (hs : m.isSharpMMC3 = true) :
    (∀ n, mapper4IsIRQPending (mapper4StepN (mmc3IRQSetup m L v1 v2) n) =
      decide (L + 1 ≤ n)) ∧
    (∀ (s : Mapper4) (v : Nat), mapper4IsIRQPending (mapper4WritePRG s 0xE000 v) = false) := by
  constructor
  · intro n
    unfold mapper4IsIRQPending
    rcases Nat.lt_or_ge n (L + 1) with hlt | hge
    · have : decide (L + 1 ≤ n) = false := by simp; omega
      rw [this]
      rcases Nat.eq_zero_or_pos n with hn0 | hn1
      · subst hn0
        have := (mmc3IRQSetup_fields m L v1 v2).2.2.2.2.1
        simp [mapper4StepN, this, hp]
      · exact (mmc3_early_edges m L v1 v2 n hp hs hn1 (by omega)).2.2.2.2.2
    · have : decide (L + 1 ≤ n) = true := by simpa using hge
      rw [this]
      obtain ⟨k, rfl⟩ : ∃ k, n = (L + 1) + k := ⟨n - (L + 1), by omega⟩
      rw [mapper4StepN_add]
      exact mapper4StepN_pending_mono _ k (mmc3_fires_at m L v1 v2 hp hs)
  · intro s v
    have e4 : (0xE000 &&& 0xE001 : Nat) = 0xE000 := by decide
    simp [mapper4IsIRQPending, mapper4WritePRG, e4]

/-- C2 witness: scenario F of the specification — latch 3, reload,
enable; the IRQ fires on the 4th edge (and not on the 3rd), and $E000
clears it. -/
theorem c2_mmc3_irq_latch_witness :
    (3 : Nat) < 256 ∧
    (mapper4IsIRQPending (mapper4StepN (mmc3IRQSetup (NewMapper4 c9Data) 3 0 0) 4) =
      decide ((3 : Nat) + 1 ≤ 4) ∧
     mapper4IsIRQPending (mapper4StepN (mmc3IRQSetup (NewMapper4 c9Data) 3 0 0) 3) =
      decide ((3 : Nat) + 1 ≤ 3) ∧
     mapper4IsIRQPending
       (mapper4WritePRG (mapper4StepN (mmc3IRQSetup (NewMapper4 c9Data) 3 0 0) 5) 0xE000 0) =
      false) := by
  have h := c2_mmc3_irq_latch (NewMapper4 c9Data) 3 0 0 (by decide) rfl rfl
  exact ⟨by decide, h.1 4, h.1 3, h.2 _ 0⟩

/-! ## C4: the PPUSCROLL/PPUADDR write latch -/

/-- The PPU state after `New` and `Reset` (no cartridge attached). -/
def ppu0 : PPU Unit :=
  { ppuctrl := 0, ppumask := 0, ppustatus := 0, oamaddr := 0
    v := 0, t := 0, x := 0, xTemp := 0, w := 0
    vram := fun _ => 0, oam := fun _ => 0
    cycle := 0, scanline := 0, frame := 0
    frameComplete := false, nmiRequested := false
    renderingOccurred := false, lastRenderFrame := 0
    paletteManager := NewPaletteManager, readBuffer := 0, cart := none }

/-- The register sequence of scenario E: PPUCTRL=$00, PPUSCROLL=$7D,
PPUSCROLL=$5E, PPUADDR=$3D, PPUADDR=$F0. -/
def c4After : PPU Unit :=
  let co := unitCartOps 0
  let p := ppuWriteRegister co ppu0 0x2000 0x00
  let p := ppuWriteRegister co p 0x2005 0x7D
  let p := ppuWriteRegister co p 0x2005 0x5E
  let p := ppuWriteRegister co p 0x2006 0x3D
  ppuWriteRegister co p 0x2006 0xF0

/-- C4 counterexample: after the scenario-E write sequence from the
reset state the fine-X register `x` holds 0, not the 5 the claim
demands (the first PPUSCROLL write stores fine-X in `xTemp` only). -/
theorem c4_fine_x_counterexample :
    c4After.x = 0 ∧ c4After.x ≠ 5 := by
  constructor <;> decide

/-- C4 (amended): a first PPUSCROLL write (w=0) stores coarse-X into
`t`, fine-X into the temporary `xTemp` and leaves `x` untouched; the
full scenario-E sequence from reset yields t = v = $3DF0, w = 0,
xTemp = 5, while x stays 0. -/
theorem c4_scroll_latch_amended {σ : Type} (co : CartOps σ) (p : PPU σ) (val : Nat)
    (hw : p.w = 0) :
    ((ppuWriteRegister co p 0x2005 val).t = (p.t &&& 0xFFE0) ||| (val >>> 3) ∧
     (ppuWriteRegister co p 0x2005 val).xTemp = val &&& 0x07 ∧
     (ppuWriteRegister co p 0x2005 val).x = p.x ∧
     (ppuWriteRegister co p 0x2005 val).w = 1) ∧
    (c4After.t = 0x3DF0 ∧ c4After.v = 0x3DF0 ∧ c4After.w = 0 ∧
     c4After.xTemp = 5 ∧ c4After.x = 0) := by
  constructor
  · simp [ppuWriteRegister, hw]
  · refine ⟨by decide, by decide, by decide, by decide, by decide⟩

/-- C4 witness: the amended theorem applied to the reset-state PPU and
the scenario's first scroll byte $7D. -/
theorem c4_scroll_latch_amended_witness :
    ((ppuWriteRegister (unitCartOps 0) ppu0 0x2005 0x7D).t =
      (ppu0.t &&& 0xFFE0) ||| (0x7D >>> 3) ∧
     (ppuWriteRegister (unitCartOps 0) ppu0 0x2005 0x7D).xTemp = 0x7D &&& 0x07 ∧
     (ppuWriteRegister (unitCartOps 0) ppu0 0x2005 0x7D).x = ppu0.x ∧
     (ppuWriteRegister (unitCartOps 0) ppu0 0x2005 0x7D).w = 1) ∧
    (c4After.t = 0x3DF0 ∧ c4After.v = 0x3DF0 ∧ c4After.w = 0 ∧
     c4After.xTemp = 5 ∧ c4After.x = 0) :=
  c4_scroll_latch_amended (unitCartOps 0) ppu0 0x7D rfl

/-! ## C7: nametable mirroring -/

/-- A reset PPU with a (trivial) cartridge attached, so that
`mirrorNameTableAddress` dispatches on the cartridge mirroring mode. -/
def c7PPU : PPU Unit := { ppu0 with cart := some () }

/-- C7: under the code's horizontal mirroring a write to $2400 is NOT
observed at $2000 (the code folds $2800 onto $2400 and $2C00 onto
$2800 instead, contradicting its own comment), while the vertical
folds $2800→$2000 and $2C00→$2400 do hold for every offset. -/
theorem c7_mirroring_horizontal_bug :
    (readNameTable (unitCartOps 0)
        (writeNameTable (unitCartOps 0) c7PPU 0x2400 0xAB) 0x2000 = 0 ∧
     readNameTable (unitCartOps 0)
        (writeNameTable (unitCartOps 0) c7PPU 0x2C00 0xCD) 0x2800 = 0) ∧
    (mirrorNameTableAddress (unitCartOps 0) c7PPU 0x2400 = 0x2400 ∧
     mirrorNameTableAddress (unitCartOps 0) c7PPU 0x2000 = 0x2000 ∧
     mirrorNameTableAddress (unitCartOps 0) c7PPU 0x2800 = 0x2400 ∧
     mirrorNameTableAddress (unitCartOps 0) c7PPU 0x2C00 = 0x2800) ∧
    (∀ k : Fin 0x400,
      mirrorNameTableAddress (unitCartOps 1) c7PPU (0x2800 + k.val) =
        mirrorNameTableAddress (unitCartOps 1) c7PPU (0x2000 + k.val) ∧
      mirrorNameTableAddress (unitCartOps 1) c7PPU (0x2C00 + k.val) =
        mirrorNameTableAddress (unitCartOps 1) c7PPU (0x2400 + k.val)) := by
  set_option maxRecDepth 4096 in
  refine ⟨⟨by decide, by decide⟩, ⟨by decide, by decide, by decide, by decide⟩, by decide⟩

/-! ## C8: controller strobe and shift reads -/

/-- A bus with controller 1 (all buttons held) and an idle APU. -/
def c8Mem : Mem Unit Unit :=
  { ram := fun _ => 0, highMem := fun _ => 0, ppu := none, apu := some APU.zero
    cart := none, input := some { buttons := 0xFF, strobe := false, index := 0 } }

/-- C8 counterexample: after strobing ($4016←1 then $4016←0) a read of
$4017 is routed to the APU and returns 0 with the bus unchanged — so
every one of the first 9 reads of $4017 returns 0, never the button
bits (all 1 here) and never the post-8-reads value 1 the claim
requires for controller 2. -/
theorem c8_controller2_counterexample :
    (memRead (unitCartOps 0) unitPRGOps
        (memWrite (unitCartOps 0) unitPRGOps
          (memWrite (unitCartOps 0) unitPRGOps c8Mem 0x4016 1) 0x4016 0) 0x4017).1 = 0 ∧
    (memRead (unitCartOps 0) unitPRGOps
        (memWrite (unitCartOps 0) unitPRGOps
          (memWrite (unitCartOps 0) unitPRGOps c8Mem 0x4016 1) 0x4016 0) 0x4017).2 =
      memWrite (unitCartOps 0) unitPRGOps
        (memWrite (unitCartOps 0) unitPRGOps c8Mem 0x4016 1) 0x4016 0 ∧
    (memRead (unitCartOps 0) unitPRGOps
        (memWrite (unitCartOps 0) unitPRGOps
          (memWrite (unitCartOps 0) unitPRGOps c8Mem 0x4016 1) 0x4016 0) 0x4017).1 ≠ 1 := by
  set_option maxRecDepth 8192 in
  refine ⟨by decide, by rfl, by decide⟩

/-- C8 (amended): writing bit 0 = 1 to $4016 starts strobing (index
pinned to 0, reads return the live A bit), writing 0 latches; each
read of $4016 returns bit `index` of the latched buttons (A, B,
Select, Start, Up, Down, Left, Right order) and shifts; after 8 reads
every further read returns 1.  $4017 is routed to the APU (returning
0 from its register decoder), not to a second controller. -/
theorem c8_controller_read_amended {σ τ : Type} (co : CartOps σ) (mo : PRGOps τ)
    (m : Mem σ τ) (c : Controller) (a : APU)
    (hin : m.input = some c) (hapu : m.apu = some a) :
    ((ctrlWrite c 1).strobe = true ∧ (ctrlWrite c 1).index = 0) ∧
    ((ctrlWrite c 0).strobe = false ∧ (ctrlWrite c 0).index = c.index ∧
      (ctrlWrite c 0).buttons = c.buttons) ∧
    (c.strobe = false → c.index < 8 →
      (memRead co mo m 0x4016).1 = (c.buttons >>> c.index) &&& 1 ∧
      (memRead co mo m 0x4016).2.input = some { c with index := c.index + 1 }) ∧
    (c.index > 7 →
      (memRead co mo m 0x4016).1 = 1 ∧
      (memRead co mo m 0x4016).2.input = some c) ∧
    ((memRead co mo m 0x4017).1 = 0 ∧ (memRead co mo m 0x4017).2 = m) := by
  refine ⟨⟨by simp [ctrlWrite], by simp [ctrlWrite]⟩,
          ⟨by simp [ctrlWrite], by simp [ctrlWrite], by simp [ctrlWrite]⟩, ?_, ?_, ?_⟩
  · intro hs hi
    have hi8 : ¬ (c.index > 7) := by omega
    constructor <;> simp [memRead, ctrlRead, hin, hs, hi8]
  · intro hi
    constructor <;> simp [memRead, ctrlRead, hin, hi]
  · constructor
    · simp [memRead, apuReadRegister, hapu]
    · have h2 : (memRead co mo m 0x4017).2 = { m with apu := some a } := by
        simp [memRead, apuReadRegister, hapu]
      rw [h2, ← hapu]

/-- C8 witness: the amended theorem at a latched controller with
buttons $A5 on the concrete bus. -/
theorem c8_controller_read_amended_witness :
    ((ctrlWrite { buttons := 0xFF, strobe := false, index := 0 } 1).strobe = true ∧
     (ctrlWrite { buttons := 0xFF, strobe := false, index := 0 } 1).index = 0) ∧
    ((ctrlWrite { buttons := 0xFF, strobe := false, index := 0 } 0).strobe = false ∧
     (ctrlWrite { buttons := 0xFF, strobe := false, index := 0 } 0).index = 0 ∧
     (ctrlWrite { buttons := 0xFF, strobe := false, index := 0 } 0).buttons = 0xFF) ∧
    (({ buttons := 0xFF, strobe := false, index := 0 } : Controller).strobe = false →
      ({ buttons := 0xFF, strobe := false, index := 0 } : Controller).index < 8 →
      (memRead (unitCartOps 0) unitPRGOps c8Mem 0x4016).1 = (0xFF >>> 0) &&& 1 ∧
      (memRead (unitCartOps 0) unitPRGOps c8Mem 0x4016).2.input =
        some { buttons := 0xFF, strobe := false, index := 0 + 1 }) ∧
    (({ buttons := 0xFF, strobe := false, index := 0 } : Controller).index > 7 →
      (memRead (unitCartOps 0) unitPRGOps c8Mem 0x4016).1 = 1 ∧
      (memRead (unitCartOps 0) unitPRGOps c8Mem 0x4016).2.input =
        some { buttons := 0xFF, strobe := false, index := 0 }) ∧
    ((memRead (unitCartOps 0) unitPRGOps c8Mem 0x4017).1 = 0 ∧
     (memRead (unitCartOps 0) unitPRGOps c8Mem 0x4017).2 = c8Mem) :=
  c8_controller_read_amended (unitCartOps 0) unitPRGOps c8Mem
    { buttons := 0xFF, strobe := false, index := 0 } APU.zero rfl rfl

/-! ## C5: PPUDATA semantics -/

/-- `readVRAM` never changes the registers the C5 claim observes. -/
theorem ppuReadVRAM_fields {σ : Type} (co : CartOps σ) (p : PPU σ) (a : Nat) :
    (ppuReadVRAM co p a).2.v = p.v ∧
    (ppuReadVRAM co p a).2.readBuffer = p.readBuffer ∧
    (ppuReadVRAM co p a).2.ppuctrl = p.ppuctrl ∧
    (ppuReadVRAM co p a).2.paletteManager = p.paletteManager := by
  rcases hc : p.cart with _ | c <;> simp [ppuReadVRAM, hc] <;> split_ifs <;> simp

/-- C5: a PPUDATA read below $3F00 returns the old buffer and refills
it from the current address; at/above $3F00 it returns the palette
byte immediately and refills the buffer from the nametable $1000
below; reads and writes post-increment `v` by 1 or 32 according to
PPUCTRL bit 2; and palette address $3F10+4k aliases $3F00+4k on both
read and write. -/
theorem c5_ppudata_semantics {σ : Type} (co : CartOps σ) (p : PPU σ) (val : Nat)
    (hv : p.v < 0x4000) :
    (p.v < 0x3F00 →
      (ppuReadRegister co p 0x2007).1 = p.readBuffer ∧
      (ppuReadRegister co p 0x2007).2.readBuffer = (ppuReadVRAM co p p.v).1) ∧
    (0x3F00 ≤ p.v →
      (ppuReadRegister co p 0x2007).1 = ReadPalette p.paletteManager (p.v &&& 0x1F) ∧
      (ppuReadRegister co p 0x2007).2.readBuffer = (ppuReadVRAM co p (p.v - 0x1000)).1) ∧
    ((ppuReadRegister co p 0x2007).2.v =
      p.v + (if p.ppuctrl &&& PPUCTRLIncrement ≠ 0 then 32 else 1)) ∧
    ((ppuWriteRegister co p 0x2007 val).v =
      p.v + (if p.ppuctrl &&& PPUCTRLIncrement ≠ 0 then 32 else 1)) ∧
    (∀ k : Fin 4,
      (ppuReadVRAM co p (0x3F10 + 4 * k.val)).1 =
        (ppuReadVRAM co p (0x3F00 + 4 * k.val)).1 ∧
      ∀ j : Nat,
        (ppuWriteVRAM co p (0x3F10 + 4 * k.val) val).paletteManager.paletteRAM j =
        (ppuWriteVRAM co p (0x3F00 + 4 * k.val) val).paletteManager.paletteRAM j) := by
  have hmod : p.v % 0x4000 = p.v := Nat.mod_eq_of_lt hv
  refine ⟨?_, ?_, ?_, ?_, ?_⟩
  · intro hlow
    rcases hE : ppuReadVRAM co p p.v with ⟨bv, bp⟩
    have hfix := ppuReadVRAM_fields co p p.v
    rw [hE] at hfix
    have hge : ¬ (p.v ≥ 0x3F00) := by omega
    simp [ppuReadRegister, hE, hge] <;> split_ifs <;> simp_all
  · intro hhigh
    have h1 : ¬ (p.v < 0x2000) := by omega
    have h2 : ¬ (p.v < 0x3F00) := by omega
    have hval : ppuReadVRAM co p p.v = (ReadPalette p.paletteManager (p.v &&& 0x1F), p) := by
      unfold ppuReadVRAM
      simp [hmod, h1, h2, hv]
    rcases hE : ppuReadVRAM co p (p.v - 0x1000) with ⟨bv, bp⟩
    have hfix := ppuReadVRAM_fields co p (p.v - 0x1000)
    rw [hE] at hfix
    simp [ppuReadRegister, hval, hE, show p.v ≥ 0x3F00 from hhigh] <;>
      split_ifs <;> simp_all
  · rcases Nat.lt_or_ge p.v 0x3F00 with hlow | hhigh
    · rcases hE : ppuReadVRAM co p p.v with ⟨bv, bp⟩
      have hfix := ppuReadVRAM_fields co p p.v
      rw [hE] at hfix
      have hge : ¬ (p.v ≥ 0x3F00) := by omega
      obtain ⟨hv1, hv2, hv3, hv4⟩ := hfix
      simp only [Prod.snd] at hv1 hv2 hv3 hv4
      by_cases hc : p.ppuctrl &&& PPUCTRLIncrement ≠ 0 <;>
        simp [ppuReadRegister, hE, hge, hc, hv1, hv3, Nat.mod_eq_of_lt (by omega : p.v + 32 < 65536),
          Nat.mod_eq_of_lt (by omega : p.v + 1 < 65536)]
    · have h1 : ¬ (p.v < 0x2000) := by omega
      have h2 : ¬ (p.v < 0x3F00) := by omega
      have hval : ppuReadVRAM co p p.v = (ReadPalette p.paletteManager (p.v &&& 0x1F), p) := by
        unfold ppuReadVRAM
        simp [hmod, h1, h2, hv]
      rcases hE : ppuReadVRAM co p (p.v - 0x1000) with ⟨bv, bp⟩
      have hfix := ppuReadVRAM_fields co p (p.v - 0x1000)
      rw [hE] at hfix
      obtain ⟨hv1, hv2, hv3, hv4⟩ := hfix
      simp only [Prod.snd] at hv1 hv2 hv3 hv4
      by_cases hc : p.ppuctrl &&& PPUCTRLIncrement ≠ 0 <;>
        simp [ppuReadRegister, hval, hE, show p.v ≥ 0x3F00 from hhigh, hc, hv1, hv3,
          Nat.mod_eq_of_lt (by omega : p.v + 32 < 65536),
          Nat.mod_eq_of_lt (by omega : p.v + 1 < 65536)]
  · have hfix : (ppuWriteVRAM co p p.v val).v = p.v ∧
        (ppuWriteVRAM co p p.v val).ppuctrl = p.ppuctrl := by
      rcases hc : p.cart with _ | c <;> simp [ppuWriteVRAM, writeNameTable, hc] <;>
        split_ifs <;> simp
    obtain ⟨hw1, hw2⟩ := hfix
    by_cases hc : p.ppuctrl &&& PPUCTRLIncrement ≠ 0 <;>
      simp [ppuWriteRegister, hc, hw1, hw2, Nat.mod_eq_of_lt (by omega : p.v + 32 < 65536),
        Nat.mod_eq_of_lt (by omega : p.v + 1 < 65536)]
  · intro k
    have e10 : (0x3F10 &&& 0x1F : Nat) = 0x10 := by decide
    have e14 : (0x3F14 &&& 0x1F : Nat) = 0x14 := by decide
    have e18 : (0x3F18 &&& 0x1F : Nat) = 0x18 := by decide
    have e1C : (0x3F1C &&& 0x1F : Nat) = 0x1C := by decide
    have e00 : (0x3F00 &&& 0x1F : Nat) = 0x00 := by decide
    have e04 : (0x3F04 &&& 0x1F : Nat) = 0x04 := by decide
    have e08 : (0x3F08 &&& 0x1F : Nat) = 0x08 := by decide
    have e0C : (0x3F0C &&& 0x1F : Nat) = 0x0C := by decide
    have f10 : (0x10 &&& 0x1F : Nat) = 0x10 := by decide
    have f14 : (0x14 &&& 0x1F : Nat) = 0x14 := by decide
    have f18 : (0x18 &&& 0x1F : Nat) = 0x18 := by decide
    have f1C : (0x1C &&& 0x1F : Nat) = 0x1C := by decide
    have f00 : (0x00 &&& 0x1F : Nat) = 0x00 := by decide
    have f04 : (0x04 &&& 0x1F : Nat) = 0x04 := by decide
    have f08 : (0x08 &&& 0x1F : Nat) = 0x08 := by decide
    have f0C : (0x0C &&& 0x1F : Nat) = 0x0C := by decide
    fin_cases k <;>
      constructor <;>
      (try intro j) <;>
      simp [ppuReadVRAM, ppuWriteVRAM, ReadPalette, WritePalette,
        e10, e14, e18, e1C, e00, e04, e08, e0C, f10, f14, f18, f1C, f00, f04, f08, f0C]

/-- C5 witness: the claim instantiated at a PPU whose address register
sits in the nametable region. -/
theorem c5_ppudata_semantics_witness :
    let p : PPU Unit := { ppu0 with v := 0x2100, readBuffer := 0x55 }
    (p.v < 0x3F00 →
      (ppuReadRegister (unitCartOps 0) p 0x2007).1 = p.readBuffer ∧
      (ppuReadRegister (unitCartOps 0) p 0x2007).2.readBuffer =
        (ppuReadVRAM (unitCartOps 0) p p.v).1) ∧
    (0x3F00 ≤ p.v →
      (ppuReadRegister (unitCartOps 0) p 0x2007).1 =
        ReadPalette p.paletteManager (p.v &&& 0x1F) ∧
      (ppuReadRegister (unitCartOps 0) p 0x2007).2.readBuffer =
        (ppuReadVRAM (unitCartOps 0) p (p.v - 0x1000)).1) ∧
    ((ppuReadRegister (unitCartOps 0) p 0x2007).2.v =
      p.v + (if p.ppuctrl &&& PPUCTRLIncrement ≠ 0 then 32 else 1)) ∧
    ((ppuWriteRegister (unitCartOps 0) p 0x2007 0x77).v =
      p.v + (if p.ppuctrl &&& PPUCTRLIncrement ≠ 0 then 32 else 1)) ∧
    (∀ k : Fin 4,
      (ppuReadVRAM (unitCartOps 0) p (0x3F10 + 4 * k.val)).1 =
        (ppuReadVRAM (unitCartOps 0) p (0x3F00 + 4 * k.val)).1 ∧
      ∀ j : Nat,
        (ppuWriteVRAM (unitCartOps 0) p (0x3F10 + 4 * k.val) 0x77).paletteManager.paletteRAM j =
        (ppuWriteVRAM (unitCartOps 0) p (0x3F00 + 4 * k.val) 0x77).paletteManager.paletteRAM j) :=
  c5_ppudata_semantics (unitCartOps 0) { ppu0 with v := 0x2100, readBuffer := 0x55 } 0x77
    (by decide)

/-! ## C3: vblank timing in the PPU frame loop -/

/-- A PPU at the last dot of scanline 260 with vblank, sprite-0-hit
and sprite-overflow all set (PPUSTATUS = $E0). -/
def c3FrameEnd : PPU Unit :=
  { ppu0 with scanline := 260, cycle := 340, ppustatus := 0xE0 }

/-- A PPU at the last dot of scanline 240 (NMI enabled, sprite-0-hit
set). -/
def c3PreVBlank : PPU Unit :=
  { ppu0 with scanline := 240, cycle := 340, ppustatus := 0x40, ppuctrl := 0x80 }

/-- C3 counterexample: the step that leaves scanline 260 clears vblank
but leaves sprite-0-hit (bit 6) and sprite-overflow (bit 5) set — the
claim demands all three cleared at (261,1); the step that enters
scanline 241 — landing on dot 0, not dot 1 — already sets vblank,
clears sprite-0-hit and requests the NMI; and the overflow bit is real:
sprite evaluation on an OAM whose first eight sprites cover scanline 0
sets PPUSTATUS bit 5. -/
theorem c3_vblank_timing_counterexample :
    ((pStep (unitCartOps 0) id c3FrameEnd).ppustatus = 0x60 ∧
     (pStep (unitCartOps 0) id c3FrameEnd).ppustatus.testBit 6 = true ∧
     (pStep (unitCartOps 0) id c3FrameEnd).ppustatus.testBit 5 = true ∧
     (pStep (unitCartOps 0) id c3FrameEnd).scanline = -1 ∧
     (pStep (unitCartOps 0) id c3FrameEnd).cycle = 0) ∧
    ((pStep (unitCartOps 0) id c3PreVBlank).ppustatus.testBit 7 = true ∧
     (pStep (unitCartOps 0) id c3PreVBlank).ppustatus.testBit 6 = false ∧
     (pStep (unitCartOps 0) id c3PreVBlank).nmiRequested = true ∧
     (pStep (unitCartOps 0) id c3PreVBlank).scanline = 241 ∧
     (pStep (unitCartOps 0) id c3PreVBlank).cycle = 0) ∧
    ((fetchSpriteData ppu0 0).1.length = 8 ∧
     (fetchSpriteData ppu0 0).2.ppustatus = 0x20 ∧
     (fetchSpriteData ppu0 0).2.ppustatus.testBit 5 = true) := by
  exact ⟨⟨by decide, by decide, by decide, by decide, by decide⟩,
         ⟨by decide, by decide, by decide, by decide, by decide⟩,
         ⟨by decide, by decide, by decide⟩⟩

/-- `pStepScroll` never touches PPUSTATUS, NMI, or the frame counters. -/
theorem pStepScroll_fields {σ : Type} (p : PPU σ) :
    (pStepScroll p).ppustatus = p.ppustatus ∧
    (pStepScroll p).nmiRequested = p.nmiRequested ∧
    (pStepScroll p).scanline = p.scanline ∧
    (pStepScroll p).cycle = p.cycle := by
  unfold pStepScroll
  simp only [apply_ite (PPU.ppustatus (σ := σ)), apply_ite (PPU.nmiRequested (σ := σ)),
    apply_ite (PPU.scanline (σ := σ)), apply_ite (PPU.cycle (σ := σ))]
  simp

/-- `pStepRender` outside the visible scanlines only updates the
palette emphasis. -/
theorem pStepRender_fields {σ : Type} (co : CartOps σ) (renderPx : PPU σ → PPU σ)
    (p : PPU σ) (h : ¬ (0 ≤ p.scanline ∧ p.scanline < 240)) :
    pStepRender co renderPx p =
      { p with paletteManager := SetEmphasis p.paletteManager (p.ppumask &&& 0xE0) } := by
  simp [pStepRender, h]

/-- Bit 7 of a value with bit 7 OR-ed in. -/
theorem testBit7_or (x : Nat) : (x ||| 0x80).testBit 7 = true := by
  have h : (0x80 : Nat).testBit 7 = true := by decide
  simp [Nat.testBit_or, h]

/-- Clearing bit 6 keeps bit 7. -/
theorem testBit7_bclr40 (x : Nat) : (bclr x 0x40).testBit 7 = x.testBit 7 := by
  have h : Nat.testBit 65471 7 = true := by decide
  simp [bclr, Nat.testBit_and, h]

/-- Clearing bit 6 clears bit 6. -/
theorem testBit6_bclr40 (x : Nat) : (bclr x 0x40).testBit 6 = false := by
  have h : Nat.testBit 65471 6 = false := by decide
  simp [bclr, Nat.testBit_and, h]

/-- Clearing bit 7 clears bit 7. -/
theorem testBit7_bclr80 (x : Nat) : (bclr x 0x80).testBit 7 = false := by
  have h : Nat.testBit 65407 7 = false := by decide
  simp [bclr, Nat.testBit_and, h]

/-- Clearing bit 7 keeps bit 6. -/
theorem testBit6_bclr80 (x : Nat) : (bclr x 0x80).testBit 6 = x.testBit 6 := by
  have h : Nat.testBit 65407 6 = true := by decide
  simp [bclr, Nat.testBit_and, h]

/-- Bit 6 of a value with bit 7 OR-ed in. -/
theorem testBit6_or80 (x : Nat) : (x ||| 0x80).testBit 6 = x.testBit 6 := by
  have h : (0x80 : Nat).testBit 6 = false := by decide
  simp [Nat.testBit_or, h]

/-- Bit 5 of a value with bit 7 OR-ed in. -/
theorem testBit5_or80 (x : Nat) : (x ||| 0x80).testBit 5 = x.testBit 5 := by
  have h : (0x80 : Nat).testBit 5 = false := by decide
  simp [Nat.testBit_or, h]

/-- Clearing bit 6 keeps bit 5. -/
theorem testBit5_bclr40 (x : Nat) : (bclr x 0x40).testBit 5 = x.testBit 5 := by
  have h : Nat.testBit 65471 5 = true := by decide
  simp [bclr, Nat.testBit_and, h]

/-- Clearing bit 7 keeps bit 5. -/
theorem testBit5_bclr80 (x : Nat) : (bclr x 0x80).testBit 5 = x.testBit 5 := by
  have h : Nat.testBit 65407 5 = true := by decide
  simp [bclr, Nat.testBit_and, h]

/-- Bit 5 of a value with bit 5 OR-ed in. -/
theorem testBit5_or20 (x : Nat) : (x ||| 0x20).testBit 5 = true := by
  have h : (0x20 : Nat).testBit 5 = true := by decide
  simp [Nat.testBit_or, h]

/-- The sprite-scan loop leaves the PPU unchanged except possibly for
OR-ing the sprite-overflow bit into PPUSTATUS. -/
theorem fetchSpriteLoop_status {σ : Type} (scanline spriteHeight : Int) :
    ∀ (fuel i : Nat) (sprites : List SpriteInfo) (p : PPU σ),
    (fetchSpriteLoop scanline spriteHeight fuel i sprites p).2 = p ∨
    (fetchSpriteLoop scanline spriteHeight fuel i sprites p).2 =
      { p with ppustatus := p.ppustatus ||| 0x20 } := by
  intro fuel
  induction fuel with
  | zero => intro i sprites p; left; rfl
  | succ n ih =>
    intro i sprites p
    simp only [fetchSpriteLoop]
    split_ifs
    · right; rfl
    · exact ih _ _ _
    · exact ih _ _ _
    · left; rfl

/-- If the sprite-scan loop enters with fewer than eight sprites and
returns eight, it has set the sprite-overflow bit. -/
theorem fetchSpriteLoop_overflow {σ : Type} (scanline spriteHeight : Int) :
    ∀ (fuel i : Nat) (sprites : List SpriteInfo) (p : PPU σ),
    sprites.length < 8 →
    8 ≤ (fetchSpriteLoop scanline spriteHeight fuel i sprites p).1.length →
    (fetchSpriteLoop scanline spriteHeight fuel i sprites p).2.ppustatus =
      p.ppustatus ||| 0x20 := by
  intro fuel
  induction fuel with
  | zero =>
    intro i sprites p h1 h2
    simp only [fetchSpriteLoop] at h2
    omega
  | succ n ih =>
    intro i sprites p h1 h2
    simp only [fetchSpriteLoop] at h2 ⊢
    split_ifs at h2 ⊢ with hi hon hbreak
    · rfl
    · refine ih _ _ _ ?_ h2
      simp only [List.length_append, List.length_singleton] at hbreak ⊢
      omega
    · exact ih _ _ _ h1 h2
    · simp only [Prod.fst] at h2
      omega

/-- The scanline-advance phase: within the non-rendered part of the
frame, the status bits and NMI change exactly at the two wrap events. -/
theorem pStepAdvance_status {σ : Type} (co : CartOps σ) (p : PPU σ)
    (hreg : p.scanline = -1 ∨ (240 ≤ p.scanline ∧ p.scanline ≤ 260))
    (hcyc : 0 ≤ p.cycle ∧ p.cycle ≤ 340) :
    ((pStepAdvance co p).ppustatus.testBit 7 =
      if p.scanline = 240 ∧ p.cycle = 340 then true
      else if p.scanline = 260 ∧ p.cycle = 340 then false
      else p.ppustatus.testBit 7) ∧
    ((pStepAdvance co p).ppustatus.testBit 6 =
      if p.scanline = 240 ∧ p.cycle = 340 then false
      else p.ppustatus.testBit 6) ∧
    ((pStepAdvance co p).ppustatus.testBit 5 = p.ppustatus.testBit 5) ∧
    ((pStepAdvance co p).nmiRequested =
      if p.scanline = 240 ∧ p.cycle = 340 ∧ p.ppuctrl &&& PPUCTRLNMIEnable ≠ 0 then true
      else p.nmiRequested) ∧
    ((pStepAdvance co p).scanline = if p.cycle = 340 then
        (if p.scanline = 260 then -1 else p.scanline + 1) else p.scanline) ∧
    ((pStepAdvance co p).cycle = if p.cycle = 340 then 0 else p.cycle + 1) := by
  rcases Int.lt_or_le p.cycle 340 with hlt | hge
  · have hnw : ¬ (p.cycle + 1 ≥ 341) := by omega
    have hne : ¬ (p.cycle = 340) := by omega
    simp [pStepAdvance, hnw, hne]
  · have hc340 : p.cycle = 340 := by omega
    have hw : ((340 : Int) + 1 ≥ 341) := by omega
    rcases hreg with hm1 | ⟨h240, h260⟩
    · -- pre-render line wraps to scanline 0
      have h1 : ¬ ((-1 : Int) + 1 = 241) := by omega
      have h2 : ¬ ((-1 : Int) + 1 ≥ 261) := by omega
      rcases hcart : p.cart with _ | c <;>
        simp [pStepAdvance, hc340, hm1, hcart, h1, h2]
    · rcases eq_or_lt_of_le h260 with h260e | hlt260
      · -- scanline 260 wraps to the pre-render line, clearing vblank only
        have h1 : ¬ ((260 : Int) + 1 = 241) := by omega
        have h2 : ((260 : Int) + 1 ≥ 261) := by omega
        have h3 : ¬ ((260 : Int) + 1 ≥ 0 ∧ (260 : Int) + 1 < 240) := by omega
        have h4 : ¬ (p.scanline = 240) := by omega
        rcases hro : p.renderingOccurred <;>
          simp [pStepAdvance, hc340, h260e, h1, h2, h3, h4, handleFrameCompletion, hro,
            PPUSTATUSVBlank, PPUSTATUSSprite0Hit, testBit7_bclr80, testBit6_bclr80,
            testBit5_bclr80]
      · rcases eq_or_lt_of_le h240 with h240e | hgt240
        · -- scanline 240 wraps into 241: vblank set, sprite-0-hit cleared, NMI edge
          have h1 : ((240 : Int) + 1 = 241) := by omega
          have h2 : ¬ ((240 : Int) + 1 ≥ 261) := by omega
          have h3 : ¬ ((240 : Int) + 1 ≥ 0 ∧ (240 : Int) + 1 < 240) := by omega
          by_cases hn : p.ppuctrl &&& PPUCTRLNMIEnable ≠ 0 <;>
            simp [pStepAdvance, hc340, ← h240e, h1, h2, h3, hn,
              PPUSTATUSVBlank, PPUSTATUSSprite0Hit,
              testBit7_or, testBit7_bclr40, testBit6_bclr40,
              testBit5_bclr40, testBit5_or80,
              show Nat.testBit 128 7 = true from by decide,
              show Nat.testBit 128 5 = false from by decide]
        · -- scanlines 241..259 advance without touching the flags
          have h1 : ¬ (p.scanline + 1 = 241) := by omega
          have h2 : ¬ (p.scanline + 1 ≥ 261) := by omega
          have h3 : ¬ (p.scanline + 1 ≥ 0 ∧ p.scanline + 1 < 240) := by omega
          have h4 : ¬ (p.scanline = 240) := by omega
          have h5 : ¬ (p.scanline = 260) := by omega
          simp [pStepAdvance, hc340, h1, h2, h3, h4, h5]

/-- C3 (amended): the PPU sets the vblank flag, clears sprite-0-hit
and (if PPUCTRL bit 7 is set) requests an NMI during the step that
wraps scanline 240 into scanline 241 — landing on dot 0, not dot 1;
it clears the vblank flag alone during the step that wraps scanline
260 into the pre-render line: neither sprite-0-hit nor the
sprite-overflow bit (PPUSTATUS bit 5) is cleared there, and no step of
the non-rendered part of the frame (scanlines 240–260 and the
pre-render line) ever changes bit 5 or, away from the two wraps, bits
7 and 6 or the NMI request.  The overflow bit does exist: sprite
evaluation (`fetchSpriteData`, run by the pixel pipeline at dot 0 of
visible scanlines) leaves the PPU unchanged except possibly for OR-ing
0x20 into PPUSTATUS, and whenever it collects eight sprites on a
scanline it does set bit 5 — which nothing in the package clears. -/
theorem c3_vblank_timing_amended {σ : Type} (co : CartOps σ)
    (renderPx : PPU σ → PPU σ) (p : PPU σ)
    (hreg : p.scanline = -1 ∨ (240 ≤ p.scanline ∧ p.scanline ≤ 260))
    (hcyc : 0 ≤ p.cycle ∧ p.cycle ≤ 340) :
    ((pStep co renderPx p).ppustatus.testBit 7 =
      if p.scanline = 240 ∧ p.cycle = 340 then true
      else if p.scanline = 260 ∧ p.cycle = 340 then false
      else p.ppustatus.testBit 7) ∧
    ((pStep co renderPx p).ppustatus.testBit 6 =
      if p.scanline = 240 ∧ p.cycle = 340 then false
      else p.ppustatus.testBit 6) ∧
    ((pStep co renderPx p).ppustatus.testBit 5 = p.ppustatus.testBit 5) ∧
    ((pStep co renderPx p).nmiRequested =
      if p.scanline = 240 ∧ p.cycle = 340 ∧ p.ppuctrl &&& PPUCTRLNMIEnable ≠ 0 then true
      else p.nmiRequested) ∧
    (∀ (q : PPU σ) (s : Int),
      (fetchSpriteData q s).2 = q ∨
      (fetchSpriteData q s).2 = { q with ppustatus := q.ppustatus ||| 0x20 }) ∧
    (∀ (q : PPU σ) (s : Int),
      8 ≤ (fetchSpriteData q s).1.length →
      (fetchSpriteData q s).2.ppustatus.testBit 5 = true) := by
  have hvis : ¬ (0 ≤ p.scanline ∧ p.scanline < 240) := by omega
  have hrend := pStepRender_fields co renderPx p hvis
  have hadv := pStepAdvance_status co
    { p with paletteManager := SetEmphasis p.paletteManager (p.ppumask &&& 0xE0) }
    (by simpa using hreg) (by simpa using hcyc)
  have hscr := pStepScroll_fields
    (pStepAdvance co { p with paletteManager := SetEmphasis p.paletteManager (p.ppumask &&& 0xE0) })
  obtain ⟨s1, s2, s3, s4⟩ := hscr
  obtain ⟨a1, a2, a3, a4, a5, a6⟩ := hadv
  refine ⟨?_, ?_, ?_, ?_, ?_, ?_⟩
  · simp only [pStep, hrend]; rw [s1]; simpa using a1
  · simp only [pStep, hrend]; rw [s1]; simpa using a2
  · simp only [pStep, hrend]; rw [s1]; simpa using a3
  · simp only [pStep, hrend]; rw [s2]; simpa using a4
  · intro q s
    simp only [fetchSpriteData]
    exact fetchSpriteLoop_status _ _ 64 0 [] q
  · intro q s h
    simp only [fetchSpriteData] at h ⊢
    rw [fetchSpriteLoop_overflow _ _ 64 0 [] q (by simp) h]
    exact testBit5_or20 _

/-- C3 witness: the amended theorem applied at the dot that enters
scanline 241 (vblank set, sprite-0-hit cleared, overflow bit kept, NMI
requested), with the sprite-evaluation conjuncts instantiated at a PPU
whose OAM puts eight sprites on scanline 0. -/
theorem c3_vblank_timing_amended_witness :
    ((pStep (unitCartOps 0) id c3PreVBlank).ppustatus.testBit 7 =
      if c3PreVBlank.scanline = 240 ∧ c3PreVBlank.cycle = 340 then true
      else if c3PreVBlank.scanline = 260 ∧ c3PreVBlank.cycle = 340 then false
      else c3PreVBlank.ppustatus.testBit 7) ∧
    ((pStep (unitCartOps 0) id c3PreVBlank).ppustatus.testBit 6 =
      if c3PreVBlank.scanline = 240 ∧ c3PreVBlank.cycle = 340 then false
      else c3PreVBlank.ppustatus.testBit 6) ∧
    ((pStep (unitCartOps 0) id c3PreVBlank).ppustatus.testBit 5 =
      c3PreVBlank.ppustatus.testBit 5) ∧
    ((pStep (unitCartOps 0) id c3PreVBlank).nmiRequested =
      if c3PreVBlank.scanline = 240 ∧ c3PreVBlank.cycle = 340 ∧
          c3PreVBlank.ppuctrl &&& PPUCTRLNMIEnable ≠ 0 then true
      else c3PreVBlank.nmiRequested) ∧
    ((fetchSpriteData ppu0 0).2 = ppu0 ∨
     (fetchSpriteData ppu0 0).2 = { ppu0 with ppustatus := ppu0.ppustatus ||| 0x20 }) ∧
    (8 ≤ (fetchSpriteData ppu0 0).1.length ∧
     (fetchSpriteData ppu0 0).2.ppustatus.testBit 5 = true) := by
  obtain ⟨h1, h2, h3, h4, h5, h6⟩ :=
    c3_vblank_timing_amended (unitCartOps 0) id c3PreVBlank
      (by right; constructor <;> decide) (by constructor <;> decide)
  exact ⟨h1, h2, h3, h4, h5 ppu0 0, by decide, h6 ppu0 0 (by decide)⟩

/-! ## C6: OAM DMA -/

/-- The PPU state produced by `f` DMA iterations that copy RAM bytes
starting at `base+i` into OAM at the current OAMADDR. -/
def dmaTargetPPU {σ : Type} (p : PPU σ) (ram : Nat → Nat) (base i f : Nat) : PPU σ :=
  { p with
    oamaddr := (p.oamaddr + f) % 256
    oam := fun j =>
      if j < 256 ∧ (j + 256 - p.oamaddr) % 256 < f then
        ram ((base + i + ((j + 256 - p.oamaddr) % 256)) &&& 0x7FF)
      else p.oam j }

/-- The DMA copy loop over a RAM source page: `f` iterations starting
at bus address `base+i` copy successive RAM bytes into OAM at the
current OAMADDR, wrapping modulo 256. -/
theorem dmaFrom_ram {σ τ : Type} (co : CartOps σ) (mo : PRGOps τ) (base : Nat) :
    ∀ (f i : Nat) (m : Mem σ τ) (p : PPU σ),
    m.ppu = some p → p.oamaddr < 256 → base + i + f ≤ 0x2000 → f ≤ 256 →
    dmaFrom co mo m base i f =
      { m with ppu := some (dmaTargetPPU p m.ram base i f) } := by
  intro f
  induction f with
  | zero =>
    intro i m p hppu ha hbound hf
    have hoam : (fun j =>
        if j < 256 ∧ (j + 256 - p.oamaddr) % 256 < 0 then
          m.ram ((base + i + ((j + 256 - p.oamaddr) % 256)) &&& 0x7FF)
        else p.oam j) = p.oam := by
      funext j; simp
    simp [dmaFrom, dmaTargetPPU, hoam, Nat.mod_eq_of_lt ha, ← hppu]
  | succ f ih =>
    intro i m p hppu ha hbound hf
    have hlt : base + i < 0x2000 := by omega
    have hone : dmaOne co mo m base i =
        { m with ppu := some (ppuWriteRegister co p 0x2004
            (m.ram ((base + i) &&& 0x7FF))) } := by
      simp [dmaOne, memRead, hlt, hppu]
    have hwr : ppuWriteRegister co p 0x2004 (m.ram ((base + i) &&& 0x7FF)) =
        { p with oam := updf p.oam p.oamaddr (m.ram ((base + i) &&& 0x7FF)), oamaddr := (p.oamaddr + 1) % 256 } := by
      simp [ppuWriteRegister]
    have hstep : dmaTargetPPU
        { p with oam := updf p.oam p.oamaddr (m.ram ((base + i) &&& 0x7FF)), oamaddr := (p.oamaddr + 1) % 256 }
        m.ram base (i + 1) f = dmaTargetPPU p m.ram base i (f + 1) := by
      unfold dmaTargetPPU
      have haddr : ((p.oamaddr + 1) % 256 + f) % 256 = (p.oamaddr + (f + 1)) % 256 := by
        omega
      have hfun : (fun j =>
          if j < 256 ∧ (j + 256 - (p.oamaddr + 1) % 256) % 256 < f then
            m.ram ((base + (i + 1) + ((j + 256 - (p.oamaddr + 1) % 256) % 256)) &&& 0x7FF)
          else updf p.oam p.oamaddr (m.ram ((base + i) &&& 0x7FF)) j) =
          (fun j =>
          if j < 256 ∧ (j + 256 - p.oamaddr) % 256 < f + 1 then
            m.ram ((base + i + ((j + 256 - p.oamaddr) % 256)) &&& 0x7FF)
          else p.oam j) := by
        funext j
        by_cases hj : j < 256
        · by_cases hja : j = p.oamaddr
          · subst hja
            have hd : (p.oamaddr + 256 - p.oamaddr) % 256 = 0 := by omega
            have hd1 : (p.oamaddr + 256 - (p.oamaddr + 1) % 256) % 256 = 255 := by omega
            simp [hd, hd1, ha, show ¬ (255 < f) by omega, updf]
          · have hd1 : (j + 256 - (p.oamaddr + 1) % 256) % 256 =
                (j + 256 - p.oamaddr) % 256 - 1 := by omega
            have hdpos : 1 ≤ (j + 256 - p.oamaddr) % 256 := by omega
            by_cases hlt2 : (j + 256 - p.oamaddr) % 256 < f + 1
            · have h1 : (j + 256 - p.oamaddr) % 256 - 1 < f := by omega
              have harg : base + (i + 1) + ((j + 256 - p.oamaddr) % 256 - 1) =
                  base + i + ((j + 256 - p.oamaddr) % 256) := by omega
              simp [hj, hlt2, h1, hd1, harg]
            · have h1 : ¬ ((j + 256 - p.oamaddr) % 256 - 1 < f) := by omega
              simp [hj, hlt2, h1, hd1, updf, hja]
        · have h1 : ¬ (j = p.oamaddr) := by omega
          simp [hj, updf, h1]
      rw [haddr, hfun]
    simp only [dmaFrom]
    rw [hone, hwr,
      ih (i + 1) _ _ rfl (Nat.mod_lt _ (by omega)) (by omega) (by omega), hstep]

/-- C6 (amended): a CPU write of V to $4014 synchronously transfers
the 256 bytes of CPU page V<<8 into OAM starting at the current
OAMADDR (leaving OAMADDR where it started), but the CPU is not
stalled: the store instruction that triggers it returns its normal
cycle count — 4 for STA absolute — never 513 or 514. -/
theorem c6_oam_dma_amended {σ τ : Type} (co : CartOps σ) (mo : PRGOps τ)
    (m : Mem σ τ) (p : PPU σ) (page : Nat)
    (hppu : m.ppu = some p) (ha : p.oamaddr < 256) (hpage : page < 0x20) :
    (memWrite co mo m 0x4014 page =
      { m with ppu := some (dmaTargetPPU p m.ram (page <<< 8) 0 256) } ∧
      (dmaTargetPPU p m.ram (page <<< 8) 0 256).oamaddr = p.oamaddr ∧
      ∀ j, j < 256 →
        (dmaTargetPPU p m.ram (page <<< 8) 0 256).oam j =
          m.ram (((page <<< 8) + ((j + 256 - p.oamaddr) % 256)) &&& 0x7FF)) ∧
    (∀ c : CPUSt σ τ, (execSTA co mo .absolute c).2 = 4) ∧
    ((4 : Int) ≠ 513 ∧ (4 : Int) ≠ 514) := by
  have hsh : page <<< 8 = page * 256 := by
    simp [Nat.shiftLeft_eq]
  refine ⟨⟨?_, ?_, ?_⟩, ?_, ⟨by decide, by decide⟩⟩
  · have hb : page <<< 8 + 0 + 256 ≤ 0x2000 := by omega
    have hw : memWrite co mo m 0x4014 page = dmaFrom co mo m (page <<< 8) 0 256 := by
      simp [memWrite, performOAMDMA]
    rw [hw, dmaFrom_ram co mo (page <<< 8) 256 0 m p hppu ha hb le_rfl]
  · simp only [dmaTargetPPU]
    omega
  · intro j hj
    have hd : (j + 256 - p.oamaddr) % 256 < 256 := by omega
    simp [dmaTargetPPU, hj, hd]
  · intro c
    rcases hE : getOperandAddress co mo c .absolute with ⟨⟨addr, pc⟩, c2⟩
    simp [execSTA, hE, getStoreCycles]

/-- The bus for the C6 counterexample: `STA $4014` at $0200 with a
PPU attached. -/
def c6Mem : Mem Unit Unit :=
  { ram := updf (updf (updf (fun _ => 0) 0x200 0x8D) 0x201 0x14) 0x202 0x40
    highMem := fun _ => 0, ppu := some ppu0, apu := none, cart := none, input := none }

/-- The CPU about to execute `STA $4014` with A = 2 (DMA source page
$0200, the page holding the instruction itself). -/
def c6CPU : CPUSt Unit Unit :=
  { a := 0x02, x := 0, y := 0, sp := 0xFD, pc := 0x0200, p := 0x24
    mem := c6Mem, cycles := 0, nmi := false, irq := false }

set_option maxRecDepth 8192 in
/-- C6 counterexample: executing the `STA $4014` that triggers OAM DMA
returns 4 cycles — not the 513/514 the claim requires — while the 256
bytes of page $02 do land in OAM. -/
theorem c6_dma_cycles_counterexample :
    ((cpuStep (unitCartOps 0) unitPRGOps (execOp (unitCartOps 0) unitPRGOps) c6CPU).2 = 4 ∧
     (cpuStep (unitCartOps 0) unitPRGOps (execOp (unitCartOps 0) unitPRGOps) c6CPU).2 ≠ 513 ∧
     (cpuStep (unitCartOps 0) unitPRGOps (execOp (unitCartOps 0) unitPRGOps) c6CPU).2 ≠ 514) ∧
    (((cpuStep (unitCartOps 0) unitPRGOps
          (execOp (unitCartOps 0) unitPRGOps) c6CPU).1.mem.ppu.getD ppu0).oam 0 = 0x8D ∧
     ((cpuStep (unitCartOps 0) unitPRGOps
          (execOp (unitCartOps 0) unitPRGOps) c6CPU).1.mem.ppu.getD ppu0).oam 1 = 0x14 ∧
     ((cpuStep (unitCartOps 0) unitPRGOps
          (execOp (unitCartOps 0) unitPRGOps) c6CPU).1.mem.ppu.getD ppu0).oam 2 = 0x40) := by
  exact ⟨⟨by decide, by decide, by decide⟩, by decide, by decide, by decide⟩

/-- C6 witness: the amended theorem at the concrete bus with page 2
and OAMADDR 0. -/
theorem c6_oam_dma_amended_witness :
    (memWrite (unitCartOps 0) unitPRGOps c6Mem 0x4014 2 =
      { c6Mem with ppu := some (dmaTargetPPU ppu0 c6Mem.ram (2 <<< 8) 0 256) } ∧
      (dmaTargetPPU ppu0 c6Mem.ram (2 <<< 8) 0 256).oamaddr = ppu0.oamaddr ∧
      ∀ j, j < 256 →
        (dmaTargetPPU ppu0 c6Mem.ram (2 <<< 8) 0 256).oam j =
          c6Mem.ram (((2 <<< 8) + ((j + 256 - ppu0.oamaddr) % 256)) &&& 0x7FF)) ∧
    (∀ c : CPUSt Unit Unit, (execSTA (unitCartOps 0) unitPRGOps .absolute c).2 = 4) ∧
    ((4 : Int) ≠ 513 ∧ (4 : Int) ≠ 514) :=
  c6_oam_dma_amended (unitCartOps 0) unitPRGOps c6Mem ppu0 2 rfl (by decide) (by decide)

/-! ## C1: IRQ servicing in CPU.Step -/

/-- The bus for C1: no devices, a NOP ($EA) at $8000 through the
test-memory region. -/
def c1Mem : Mem Unit Unit :=
  { ram := fun _ => 0, highMem := updf (fun _ => 0) 0x2000 0xEA
    ppu := none, apu := none, cart := none, input := none }

/-- A CPU with the IRQ line asserted and the I flag clear, about to
fetch the NOP at $8000. -/
def c1CPU : CPUSt Unit Unit :=
  { a := 0, x := 0, y := 0, sp := 0xFD, pc := 0x8000, p := 0x20
    mem := c1Mem, cycles := 0, nmi := false, irq := true }

/-- C1: with the IRQ line asserted and I clear, `Step` does NOT service
the interrupt — it clears the IRQ latch and executes the next
instruction (the NOP: 2 cycles, PC+1, SP and P untouched) instead of
pushing PC/P, setting I and loading the $FFFE vector for 7 cycles; the
unused `handleIRQ` (which would push 3 bytes, SP $FD→$FA) shows what
servicing would have done. -/
theorem c1_irq_not_serviced :
    getFlag c1CPU FlagInterrupt = false ∧ c1CPU.irq = true ∧
    (cpuStep (unitCartOps 0) unitPRGOps (execOp (unitCartOps 0) unitPRGOps) c1CPU).2 = 2 ∧
    (cpuStep (unitCartOps 0) unitPRGOps (execOp (unitCartOps 0) unitPRGOps) c1CPU).2 ≠ 7 ∧
    (cpuStep (unitCartOps 0) unitPRGOps (execOp (unitCartOps 0) unitPRGOps) c1CPU).1.pc =
      0x8001 ∧
    (cpuStep (unitCartOps 0) unitPRGOps (execOp (unitCartOps 0) unitPRGOps) c1CPU).1.sp =
      c1CPU.sp ∧
    (cpuStep (unitCartOps 0) unitPRGOps (execOp (unitCartOps 0) unitPRGOps) c1CPU).1.p =
      c1CPU.p ∧
    (cpuStep (unitCartOps 0) unitPRGOps (execOp (unitCartOps 0) unitPRGOps) c1CPU).1.irq =
      false ∧
    (handleIRQ (unitCartOps 0) unitPRGOps c1CPU).sp = 0xFA ∧
    getFlag (handleIRQ (unitCartOps 0) unitPRGOps c1CPU) FlagInterrupt = true := by
  exact ⟨by decide, by decide, by decide, by decide, by decide, by decide, by decide,
    by decide, by decide, by decide⟩

end GoNES
